import Mathlib

/-!
# Verification of the libamvp demo application dispatcher (`app/app_main.c`)

This file gives a shallow embedding of the control flow of `main` in
`src/app/app_main.c` (from the point where the AMVP session context is
created, line 170, to the single `end:` cleanup label, lines 403-411),
together with the capability-registration helper `enable_hash`
(lines 413-424).

Modelling decisions:

* Every call into libamvp (and the two-factor-auth / file-save helpers of
  the app layer) is recorded as an `Event` in an execution trace, in
  program order.  The few diagnostics that matter to the specification
  (the vector-file configuration-conflict message at line 259, the
  "continuing anyway" warning at line 241 and the registration-save error
  message at line 297) are also traced.
* The results of the collaborator-library calls are an oracle: an `Env`
  record holding the `AMVP_RESULT` each call would return
  (`0 = AMVP_SUCCESS`; any other value is a failure code), a `Bool` for
  the pointer-returning `amvp_get_current_registration`, and the `int`
  returned by `amvp_get_vector_set_count`.
* The command-line derived flags live in `APP_CONFIG`, mirroring the
  fields of the app's configuration structure that `main` reads; the
  environment-variable derived TLS file settings live in `SessionParams`
  (mirroring the globals `ca_chain_file`, `cert_file`, `key_file`).
  String-valued fields (file names, URLs) are not modelled: `main` never
  branches on their contents, it only forwards them to the library.
* The C variable `rv` is threaded explicitly.  Branches that `goto end`
  without assigning `rv` (the vector-file conflict at lines 258-261, a
  failed `app_setup_two_factor_auth` at line 225, a failed `enable_hash`
  at line 275, `get_cost` at lines 278-286 and the whole `get_reg` block
  at lines 288-307) leave `rv` unchanged, exactly as in the source.
* The startup phases before the session context exists (CLI ingestion,
  FIPS provider bootstrap, `setup_session_parameters`) are outside the
  embedding; the specification scopes them out as process-startup
  concerns, and no claim depends on them.
* The default-server comparison at lines 319-323 only prints a warning
  and has no other effect, so it is not modelled.

The function `amvp_app_main` returns the pair of the process exit status
(`main`'s `return rv`) and the full execution trace, whose last event is
always the `app_cleanup` call performed at the `end:` label.
-/

namespace AppMain

/-- `AMVP_SUCCESS` is the zero result code of libamvp. -/
def AMVP_SUCCESS : Nat := 0

/-- The environment-variable derived globals of `app_main.c` that `main`
branches on: whether `AMV_CA_FILE`, `AMV_CERT_FILE`, `AMV_KEY_FILE` are set
(lines 197 and 209). -/
structure SessionParams where
  ca_chain_file : Bool := false
  cert_file : Bool := false
  key_file : Bool := false
deriving DecidableEq

/-- The fields of the app configuration structure (`APP_CONFIG`, populated by
`ingest_cli` and zero-initialised at line 128) that `main` reads.  Each `Bool`
mirrors one flag tested in the dispatch chain of `main`. -/
structure APP_CONFIG where
  sample : Bool := false
  get : Bool := false
  save_to : Bool := false
  post : Bool := false
  delete : Bool := false
  vector_req : Bool := false
  vector_rsp : Bool := false
  manual_reg : Bool := false
  hash : Bool := false
  get_cost : Bool := false
  get_reg : Bool := false
  kat : Bool := false
  fips_validation : Bool := false
  vector_upload : Bool := false
  put : Bool := false
  empty_alg : Bool := false
  get_results : Bool := false
  resume_session : Bool := false
  cancel_session : Bool := false
  get_expected : Bool := false
  post_resources : Bool := false
  mod_cert_req : Bool := false
deriving DecidableEq

/-- Oracle for the results of the collaborator calls issued by `main` and
`enable_hash`.  `Nat` fields are `AMVP_RESULT` codes (`0 = AMVP_SUCCESS`);
`get_current_registration` is `false` when the library returns `NULL`;
`save_string_to_file` and `two_factor_auth` return nonzero `int` on failure,
as in the app helpers. -/
structure Env where
  create_test_session : Nat := 0
  set_server : Nat := 0
  set_api_context : Nat := 0
  set_path_segment : Nat := 0
  set_cacerts : Nat := 0
  set_certkey : Nat := 0
  two_factor_auth : Nat := 0
  mark_as_get_only : Nat := 0
  set_get_save_file : Nat := 0
  set_json_filename : Nat := 0
  cap_hash_enable : Nat := 0
  cap_hash_set_domain : Nat := 0
  get_vector_set_count : Int := 0
  get_current_registration : Bool := true
  save_string_to_file : Nat := 0
  load_kat_filename : Nat := 0
  run_vectors_from_file : Nat := 0
  oe_ingest_metadata : Nat := 0
  oe_set_fips_validation_metadata : Nat := 0
  upload_vectors_from_file : Nat := 0
  put_data_from_file : Nat := 0
  get_results_from_server : Nat := 0
  resume_test_session : Nat := 0
  cancel_test_session : Nat := 0
  get_expected_results : Nat := 0
  mark_as_post_resources : Nat := 0
  mark_as_cert_req : Nat := 0
  amvp_run : Nat := 0
deriving DecidableEq

/-- One observable event of an execution of `main`: a call into libamvp or an
app helper, or one of the three diagnostics the spec talks about. -/
inductive Event where
  | create_test_session
  | set_server
  | set_api_context
  | set_path_segment
  | set_cacerts
  | set_certkey
  | setup_two_factor_auth
  | mark_as_sample
  | mark_as_get_only
  | set_get_save_file
  | print_save_warning
  | mark_as_post_only
  | mark_as_delete_only
  | mark_as_request_only
  | print_vector_conflict
  | set_json_filename
  | cap_hash_enable
  | cap_hash_set_domain
  | get_vector_set_count
  | get_current_registration
  | save_string_to_file
  | print_reg_save_error
  | load_kat_filename
  | run_vectors_from_file
  | oe_ingest_metadata
  | oe_set_fips_validation_metadata
  | upload_vectors_from_file
  | put_data_from_file
  | mark_as_put_after_test
  | get_results_from_server
  | resume_test_session
  | cancel_test_session
  | get_expected_results
  | mark_as_post_resources
  | mark_as_cert_req
  | run
  | app_cleanup
deriving DecidableEq

/-- `enable_hash` (app_main.c lines 413-424): registers the SHA-256
capability and its message-length domain; each call is guarded by
`CHECK_ENABLE_CAP_RV`, which jumps to the local `end:` label on a
non-success result.  Returns the local `rv` and the calls made. -/
def enable_hash (env : Env) : Nat × List Event :=
  if env.cap_hash_enable ≠ AMVP_SUCCESS then
    (env.cap_hash_enable, [Event.cap_hash_enable])
  else if env.cap_hash_set_domain ≠ AMVP_SUCCESS then
    (env.cap_hash_set_domain, [Event.cap_hash_enable, Event.cap_hash_set_domain])
  else
    (env.cap_hash_set_domain, [Event.cap_hash_enable, Event.cap_hash_set_domain])

/-- Lines 389-401: the two non-terminal side actions (`post_resources`,
`mod_cert_req`), each assigning `rv` without checking it, followed by the
final `amvp_run` whose result is discarded. -/
def main_finale (cfg : APP_CONFIG) (env : Env) (rv : Nat) (tr : List Event) :
    Nat × List Event :=
  let rv1 := if cfg.post_resources then env.mark_as_post_resources else rv
  let tr1 := if cfg.post_resources then tr ++ [Event.mark_as_post_resources] else tr
  let rv2 := if cfg.mod_cert_req then env.mark_as_cert_req else rv1
  let tr2 := if cfg.mod_cert_req then tr1 ++ [Event.mark_as_cert_req] else tr1
  (rv2, tr2 ++ [Event.run])

/-- Lines 346-387: vector upload, the two PUT branches, and the four
session-file actions (`get_results`, `resume`, `cancel`, `get_expected`),
each terminal except the deferred-PUT mark. -/
def main_actions (cfg : APP_CONFIG) (env : Env) (rv : Nat) (tr : List Event) :
    Nat × List Event :=
  if cfg.vector_upload then
    (env.upload_vectors_from_file, tr ++ [Event.upload_vectors_from_file])
  else if cfg.empty_alg && cfg.put then
    (env.put_data_from_file, tr ++ [Event.put_data_from_file])
  else
    let tr1 := if !cfg.empty_alg && cfg.put then tr ++ [Event.mark_as_put_after_test] else tr
    if cfg.get_results then
      (env.get_results_from_server, tr1 ++ [Event.get_results_from_server])
    else if cfg.resume_session then
      (env.resume_test_session, tr1 ++ [Event.resume_test_session])
    else if cfg.cancel_session then
      (env.cancel_test_session, tr1 ++ [Event.cancel_test_session])
    else if cfg.get_expected then
      (env.get_expected_results, tr1 ++ [Event.get_expected_results])
    else
      main_finale cfg env rv tr1

/-- Lines 325-344: FIPS-validation metadata ingestion and binding; either
failure is terminal. -/
def main_fips (cfg : APP_CONFIG) (env : Env) (rv : Nat) (tr : List Event) :
    Nat × List Event :=
  if cfg.fips_validation then
    if env.oe_ingest_metadata ≠ AMVP_SUCCESS then
      (env.oe_ingest_metadata, tr ++ [Event.oe_ingest_metadata])
    else if env.oe_set_fips_validation_metadata ≠ AMVP_SUCCESS then
      (env.oe_set_fips_validation_metadata,
        tr ++ [Event.oe_ingest_metadata, Event.oe_set_fips_validation_metadata])
    else
      main_actions cfg env env.oe_set_fips_validation_metadata
        (tr ++ [Event.oe_ingest_metadata, Event.oe_set_fips_validation_metadata])
  else
    main_actions cfg env rv tr

/-- Lines 278-317: the four terminal inspection modes.  `get_cost` and the
whole `get_reg` block never assign `rv`; `kat` and offline vector
processing assign it from the library call. -/
def main_modes (cfg : APP_CONFIG) (env : Env) (rv : Nat) (tr : List Event) :
    Nat × List Event :=
  if cfg.get_cost then
    (rv, tr ++ [Event.get_vector_set_count])
  else if cfg.get_reg then
    if !env.get_current_registration then
      (rv, tr ++ [Event.get_current_registration])
    else if cfg.save_to then
      if env.save_string_to_file ≠ 0 then
        (rv, tr ++ [Event.get_current_registration, Event.save_string_to_file,
                    Event.print_reg_save_error])
      else
        (rv, tr ++ [Event.get_current_registration, Event.save_string_to_file])
    else
      (rv, tr ++ [Event.get_current_registration])
  else if cfg.kat then
    (env.load_kat_filename, tr ++ [Event.load_kat_filename])
  else if cfg.vector_req && cfg.vector_rsp then
    (env.run_vectors_from_file, tr ++ [Event.run_vectors_from_file])
  else
    main_fips cfg env rv tr

/-- Lines 263-276: manual registration via a JSON file, or (exclusively)
capability registration through `enable_hash`.  Note that `main` does not
assign its own `rv` from `enable_hash`'s result; it only tests it. -/
def main_reg (cfg : APP_CONFIG) (env : Env) (rv : Nat) (tr : List Event) :
    Nat × List Event :=
  if cfg.manual_reg then
    if env.set_json_filename ≠ AMVP_SUCCESS then
      (env.set_json_filename, tr ++ [Event.set_json_filename])
    else
      main_modes cfg env env.set_json_filename (tr ++ [Event.set_json_filename])
  else if cfg.hash then
    if (enable_hash env).1 ≠ AMVP_SUCCESS then
      (rv, tr ++ (enable_hash env).2)
    else
      main_modes cfg env rv (tr ++ (enable_hash env).2)
  else
    main_modes cfg env rv tr

/-- Lines 246-261: the unconditional marks (`post`, `delete`,
request-only) and the vector-file configuration check: a response file
without a request file prints the conflict diagnostic and jumps to `end:`
without touching `rv`. -/
def main_marks2 (cfg : APP_CONFIG) (env : Env) (rv : Nat) (tr : List Event) :
    Nat × List Event :=
  let tr1 := if cfg.post then tr ++ [Event.mark_as_post_only] else tr
  let tr2 := if cfg.delete then tr1 ++ [Event.mark_as_delete_only] else tr1
  let tr3 := if cfg.vector_req && !cfg.vector_rsp then
               tr2 ++ [Event.mark_as_request_only] else tr2
  if !cfg.vector_req && cfg.vector_rsp then
    (rv, tr3 ++ [Event.print_vector_conflict])
  else
    main_reg cfg env rv tr3

/-- Lines 229-244: the sample mark and the get-only block.  A failing
`amvp_mark_as_get_only` is terminal; a failing `amvp_set_get_save_file`
only prints the "continuing anyway" warning, leaving its status in `rv`. -/
def main_marks (cfg : APP_CONFIG) (env : Env) (rv : Nat) (tr : List Event) :
    Nat × List Event :=
  let tr1 := if cfg.sample then tr ++ [Event.mark_as_sample] else tr
  if cfg.get then
    if env.mark_as_get_only ≠ AMVP_SUCCESS then
      (env.mark_as_get_only, tr1 ++ [Event.mark_as_get_only])
    else if cfg.save_to then
      if env.set_get_save_file ≠ AMVP_SUCCESS then
        main_marks2 cfg env env.set_get_save_file
          (tr1 ++ [Event.mark_as_get_only, Event.set_get_save_file,
                   Event.print_save_warning])
      else
        main_marks2 cfg env env.set_get_save_file
          (tr1 ++ [Event.mark_as_get_only, Event.set_get_save_file])
    else
      main_marks2 cfg env env.mark_as_get_only (tr1 ++ [Event.mark_as_get_only])
  else
    main_marks2 cfg env rv tr1

/-- Line 225: `app_setup_two_factor_auth`; a nonzero return jumps to `end:`
without assigning `rv`. -/
def main_two_factor (cfg : APP_CONFIG) (env : Env) (rv : Nat) (tr : List Event) :
    Nat × List Event :=
  let tr1 := tr ++ [Event.setup_two_factor_auth]
  if env.two_factor_auth ≠ 0 then
    (rv, tr1)
  else
    main_marks cfg env rv tr1

/-- Lines 209-219: optional TLS client certificate and key. -/
def main_certkey (p : SessionParams) (cfg : APP_CONFIG) (env : Env) (rv : Nat)
    (tr : List Event) : Nat × List Event :=
  if p.cert_file && p.key_file then
    if env.set_certkey ≠ AMVP_SUCCESS then
      (env.set_certkey, tr ++ [Event.set_certkey])
    else
      main_two_factor cfg env env.set_certkey (tr ++ [Event.set_certkey])
  else
    main_two_factor cfg env rv tr

/-- Lines 197-207: optional CA chain file. -/
def main_cacerts (p : SessionParams) (cfg : APP_CONFIG) (env : Env) (rv : Nat)
    (tr : List Event) : Nat × List Event :=
  if p.ca_chain_file then
    if env.set_cacerts ≠ AMVP_SUCCESS then
      (env.set_cacerts, tr ++ [Event.set_cacerts])
    else
      main_certkey p cfg env env.set_cacerts (tr ++ [Event.set_cacerts])
  else
    main_certkey p cfg env rv tr

/-- Lines 170-195: session creation and the three mandatory server/URI
setters; any failure is terminal. -/
def main_setup (p : SessionParams) (cfg : APP_CONFIG) (env : Env) (rv : Nat)
    (tr : List Event) : Nat × List Event :=
  let tr1 := tr ++ [Event.create_test_session]
  if env.create_test_session ≠ AMVP_SUCCESS then
    (env.create_test_session, tr1)
  else
    let tr2 := tr1 ++ [Event.set_server]
    if env.set_server ≠ AMVP_SUCCESS then
      (env.set_server, tr2)
    else
      let tr3 := tr2 ++ [Event.set_api_context]
      if env.set_api_context ≠ AMVP_SUCCESS then
        (env.set_api_context, tr3)
      else
        let tr4 := tr3 ++ [Event.set_path_segment]
        if env.set_path_segment ≠ AMVP_SUCCESS then
          (env.set_path_segment, tr4)
        else
          main_cacerts p cfg env env.set_path_segment tr4

/-- The embedding of `main` from the session-context creation (line 170) to
the process return (line 410): the dispatch body followed by the single
`end:` label that calls `app_cleanup` (which wraps `amvp_cleanup`) and
returns `rv` as the process exit status. -/
def amvp_app_main (p : SessionParams) (cfg : APP_CONFIG) (env : Env) :
    Nat × List Event :=
  let s := main_setup p cfg env AMVP_SUCCESS []
  (s.1, s.2 ++ [Event.app_cleanup])


/-- Events that some branch of the dispatch body can emit besides the two
capability-registration calls and the final cleanup. -/
def uncondEmits : List Event :=
  [Event.create_test_session, Event.set_server, Event.set_api_context,
   Event.set_path_segment, Event.set_cacerts, Event.set_certkey,
   Event.setup_two_factor_auth, Event.mark_as_sample, Event.mark_as_get_only,
   Event.set_get_save_file, Event.print_save_warning, Event.mark_as_post_only,
   Event.mark_as_delete_only, Event.mark_as_request_only,
   Event.print_vector_conflict, Event.set_json_filename,
   Event.get_vector_set_count, Event.get_current_registration,
   Event.save_string_to_file, Event.print_reg_save_error,
   Event.load_kat_filename, Event.run_vectors_from_file,
   Event.oe_ingest_metadata, Event.oe_set_fips_validation_metadata,
   Event.upload_vectors_from_file, Event.put_data_from_file,
   Event.mark_as_put_after_test, Event.get_results_from_server,
   Event.resume_test_session, Event.cancel_test_session,
   Event.get_expected_results, Event.mark_as_post_resources,
   Event.mark_as_cert_req, Event.run]

theorem count_pres {x : Event} (tr l : List Event) (hsub : l ⊆ uncondEmits)
    (hx : x ∉ uncondEmits) : (tr ++ l).count x = tr.count x := by
  rw [List.count_append, List.count_eq_zero.mpr (fun h => hx (hsub h)),
    Nat.add_zero]

theorem main_finale_count (cfg : APP_CONFIG) (env : Env) (rv : Nat)
    (tr : List Event) (x : Event) (hx : x ∉ uncondEmits) :
    ((main_finale cfg env rv tr).2).count x = tr.count x := by
  by_cases h1 : cfg.post_resources <;> by_cases h2 : cfg.mod_cert_req <;>
    simp only [main_finale, h1, h2, ite_true, ite_false, Bool.false_eq_true,
      if_true, if_false, List.append_assoc, List.singleton_append,
      List.cons_append, List.nil_append] <;>
    exact count_pres _ _ (by decide) hx


/-- Appending events drawn from a list not containing `x` does not change the
count of `x`. -/
theorem count_pres' {x : Event} (tr l L : List Event) (hsub : l ⊆ L)
    (hx : x ∉ L) : (tr ++ l).count x = tr.count x := by
  rw [List.count_append, List.count_eq_zero.mpr (fun h => hx (hsub h)),
    Nat.add_zero]

theorem enable_hash_tr (env : Env) :
    (enable_hash env).2 = [Event.cap_hash_enable] ∨
      (enable_hash env).2 = [Event.cap_hash_enable, Event.cap_hash_set_domain] := by
  unfold enable_hash
  split
  · exact Or.inl rfl
  · split
    · exact Or.inr rfl
    · exact Or.inr rfl

theorem enable_hash_sub (env : Env) :
    (enable_hash env).2 ⊆ [Event.cap_hash_enable, Event.cap_hash_set_domain] := by
  rcases enable_hash_tr env with h | h <;> rw [h] <;> decide

theorem main_actions_count (cfg : APP_CONFIG) (env : Env) (rv : Nat)
    (tr : List Event) (x : Event) (hx : x ∉ uncondEmits) :
    ((main_actions cfg env rv tr).2).count x = tr.count x := by
  by_cases h1 : cfg.vector_upload <;>
  by_cases h2 : (cfg.empty_alg && cfg.put) <;>
  by_cases h3 : (!cfg.empty_alg && cfg.put) <;>
  by_cases h4 : cfg.get_results <;>
  by_cases h5 : cfg.resume_session <;>
  by_cases h6 : cfg.cancel_session <;>
  by_cases h7 : cfg.get_expected <;>
    simp only [main_actions, h1, h2, h3, h4, h5, h6, h7, ite_true, ite_false,
      Bool.false_eq_true, if_true, if_false, List.append_assoc,
      List.singleton_append, List.cons_append, List.nil_append] <;>
    first
      | exact count_pres _ _ (by decide) hx
      | (rw [main_finale_count _ _ _ _ _ hx]
         all_goals first
           | rfl
           | exact count_pres _ _ (by decide) hx)

theorem main_fips_count (cfg : APP_CONFIG) (env : Env) (rv : Nat)
    (tr : List Event) (x : Event) (hx : x ∉ uncondEmits) :
    ((main_fips cfg env rv tr).2).count x = tr.count x := by
  by_cases h1 : cfg.fips_validation <;>
  by_cases h2 : env.oe_ingest_metadata = AMVP_SUCCESS <;>
  by_cases h3 : env.oe_set_fips_validation_metadata = AMVP_SUCCESS <;>
    simp only [main_fips, h1, h2, h3, ne_eq, not_true_eq_false,
      not_false_eq_true, ite_true, ite_false, Bool.false_eq_true, if_true,
      if_false, List.append_assoc, List.singleton_append, List.cons_append,
      List.nil_append] <;>
    first
      | exact count_pres _ _ (by decide) hx
      | (rw [main_actions_count _ _ _ _ _ hx]
         all_goals first
           | rfl
           | exact count_pres _ _ (by decide) hx)

theorem main_modes_count (cfg : APP_CONFIG) (env : Env) (rv : Nat)
    (tr : List Event) (x : Event) (hx : x ∉ uncondEmits) :
    ((main_modes cfg env rv tr).2).count x = tr.count x := by
  by_cases h1 : cfg.get_cost <;>
  by_cases h2 : cfg.get_reg <;>
  by_cases h3 : env.get_current_registration <;>
  by_cases h4 : cfg.save_to <;>
  by_cases h5 : env.save_string_to_file = 0 <;>
  by_cases h6 : cfg.kat <;>
  by_cases h7 : (cfg.vector_req && cfg.vector_rsp) <;>
    simp only [main_modes, h1, h2, h3, h4, h5, h6, h7, ne_eq,
      not_true_eq_false, not_false_eq_true, Bool.not_true, Bool.not_false,
      ite_true, ite_false, Bool.false_eq_true, if_true, if_false,
      List.append_assoc, List.singleton_append, List.cons_append,
      List.nil_append] <;>
    first
      | exact count_pres _ _ (by decide) hx
      | (rw [main_fips_count _ _ _ _ _ hx]
         all_goals first
           | rfl
           | exact count_pres _ _ (by decide) hx)

theorem main_reg_count (cfg : APP_CONFIG) (env : Env) (rv : Nat)
    (tr : List Event) (x : Event) (hx : x ∉ uncondEmits)
    (hcap : cfg.manual_reg = true ∨
      (x ≠ Event.cap_hash_enable ∧ x ≠ Event.cap_hash_set_domain)) :
    ((main_reg cfg env rv tr).2).count x = tr.count x := by
  by_cases h1 : cfg.manual_reg
  case pos =>
    by_cases h2 : env.set_json_filename = AMVP_SUCCESS <;>
      simp only [main_reg, h1, h2, ne_eq, not_true_eq_false,
        not_false_eq_true, ite_true, ite_false, Bool.false_eq_true, if_true,
        if_false, List.append_assoc, List.singleton_append, List.cons_append,
        List.nil_append] <;>
      first
        | exact count_pres _ _ (by decide) hx
        | (rw [main_modes_count _ _ _ _ _ hx]
           all_goals first
             | rfl
             | exact count_pres _ _ (by decide) hx)
  case neg =>
    have hxc : x ∉ [Event.cap_hash_enable, Event.cap_hash_set_domain] := by
      rcases hcap with hcap | ⟨hne1, hne2⟩
      · exact absurd hcap h1
      · simp [hne1, hne2]
    by_cases h2 : cfg.hash <;>
    by_cases h3 : (enable_hash env).1 = AMVP_SUCCESS <;>
      simp only [main_reg, h1, h2, h3, ne_eq, not_true_eq_false,
        not_false_eq_true, ite_true, ite_false, Bool.false_eq_true, if_true,
        if_false] <;>
      first
        | exact count_pres' _ _ _ (enable_hash_sub env) hxc
        | (rw [main_modes_count _ _ _ _ _ hx]
           all_goals first
             | rfl
             | exact count_pres' _ _ _ (enable_hash_sub env) hxc)

theorem main_marks2_count (cfg : APP_CONFIG) (env : Env) (rv : Nat)
    (tr : List Event) (x : Event) (hx : x ∉ uncondEmits)
    (hcap : cfg.manual_reg = true ∨
      (x ≠ Event.cap_hash_enable ∧ x ≠ Event.cap_hash_set_domain)) :
    ((main_marks2 cfg env rv tr).2).count x = tr.count x := by
  by_cases h1 : cfg.post <;>
  by_cases h2 : cfg.delete <;>
  by_cases h3 : (cfg.vector_req && !cfg.vector_rsp) <;>
  by_cases h4 : (!cfg.vector_req && cfg.vector_rsp) <;>
    simp only [main_marks2, h1, h2, h3, h4, ite_true, ite_false,
      Bool.false_eq_true, if_true, if_false, List.append_assoc,
      List.singleton_append, List.cons_append, List.nil_append] <;>
    first
      | exact count_pres _ _ (by decide) hx
      | (rw [main_reg_count _ _ _ _ _ hx hcap]
         all_goals first
           | rfl
           | exact count_pres _ _ (by decide) hx)

theorem main_marks_count (cfg : APP_CONFIG) (env : Env) (rv : Nat)
    (tr : List Event) (x : Event) (hx : x ∉ uncondEmits)
    (hcap : cfg.manual_reg = true ∨
      (x ≠ Event.cap_hash_enable ∧ x ≠ Event.cap_hash_set_domain)) :
    ((main_marks cfg env rv tr).2).count x = tr.count x := by
  by_cases h1 : cfg.sample <;>
  by_cases h2 : cfg.get <;>
  by_cases h3 : env.mark_as_get_only = AMVP_SUCCESS <;>
  by_cases h4 : cfg.save_to <;>
  by_cases h5 : env.set_get_save_file = AMVP_SUCCESS <;>
    simp only [main_marks, h1, h2, h3, h4, h5, ne_eq, not_true_eq_false,
      not_false_eq_true, ite_true, ite_false, Bool.false_eq_true, if_true,
      if_false, List.append_assoc, List.singleton_append, List.cons_append,
      List.nil_append] <;>
    first
      | exact count_pres _ _ (by decide) hx
      | (rw [main_marks2_count _ _ _ _ _ hx hcap]
         all_goals first
           | rfl
           | exact count_pres _ _ (by decide) hx)

theorem main_two_factor_count (cfg : APP_CONFIG) (env : Env) (rv : Nat)
    (tr : List Event) (x : Event) (hx : x ∉ uncondEmits)
    (hcap : cfg.manual_reg = true ∨
      (x ≠ Event.cap_hash_enable ∧ x ≠ Event.cap_hash_set_domain)) :
    ((main_two_factor cfg env rv tr).2).count x = tr.count x := by
  by_cases h1 : env.two_factor_auth = 0 <;>
    simp only [main_two_factor, h1, ne_eq, not_true_eq_false,
      not_false_eq_true, ite_true, ite_false, if_true, if_false,
      List.append_assoc, List.singleton_append, List.cons_append,
      List.nil_append] <;>
    first
      | exact count_pres _ _ (by decide) hx
      | (rw [main_marks_count _ _ _ _ _ hx hcap]
         all_goals first
           | rfl
           | exact count_pres _ _ (by decide) hx)

theorem main_certkey_count (p : SessionParams) (cfg : APP_CONFIG) (env : Env)
    (rv : Nat) (tr : List Event) (x : Event) (hx : x ∉ uncondEmits)
    (hcap : cfg.manual_reg = true ∨
      (x ≠ Event.cap_hash_enable ∧ x ≠ Event.cap_hash_set_domain)) :
    ((main_certkey p cfg env rv tr).2).count x = tr.count x := by
  by_cases h1 : (p.cert_file && p.key_file) <;>
  by_cases h2 : env.set_certkey = AMVP_SUCCESS <;>
    simp only [main_certkey, h1, h2, ne_eq, not_true_eq_false,
      not_false_eq_true, ite_true, ite_false, Bool.false_eq_true, if_true,
      if_false, List.append_assoc, List.singleton_append, List.cons_append,
      List.nil_append] <;>
    first
      | exact count_pres _ _ (by decide) hx
      | (rw [main_two_factor_count _ _ _ _ _ hx hcap]
         all_goals first
           | rfl
           | exact count_pres _ _ (by decide) hx)

theorem main_cacerts_count (p : SessionParams) (cfg : APP_CONFIG) (env : Env)
    (rv : Nat) (tr : List Event) (x : Event) (hx : x ∉ uncondEmits)
    (hcap : cfg.manual_reg = true ∨
      (x ≠ Event.cap_hash_enable ∧ x ≠ Event.cap_hash_set_domain)) :
    ((main_cacerts p cfg env rv tr).2).count x = tr.count x := by
  by_cases h1 : p.ca_chain_file <;>
  by_cases h2 : env.set_cacerts = AMVP_SUCCESS <;>
    simp only [main_cacerts, h1, h2, ne_eq, not_true_eq_false,
      not_false_eq_true, ite_true, ite_false, Bool.false_eq_true, if_true,
      if_false, List.append_assoc, List.singleton_append, List.cons_append,
      List.nil_append] <;>
    first
      | exact count_pres _ _ (by decide) hx
      | (rw [main_certkey_count _ _ _ _ _ _ hx hcap]
         all_goals first
           | rfl
           | exact count_pres _ _ (by decide) hx)

theorem main_setup_count (p : SessionParams) (cfg : APP_CONFIG) (env : Env)
    (rv : Nat) (tr : List Event) (x : Event) (hx : x ∉ uncondEmits)
    (hcap : cfg.manual_reg = true ∨
      (x ≠ Event.cap_hash_enable ∧ x ≠ Event.cap_hash_set_domain)) :
    ((main_setup p cfg env rv tr).2).count x = tr.count x := by
  by_cases h1 : env.create_test_session = AMVP_SUCCESS <;>
  by_cases h2 : env.set_server = AMVP_SUCCESS <;>
  by_cases h3 : env.set_api_context = AMVP_SUCCESS <;>
  by_cases h4 : env.set_path_segment = AMVP_SUCCESS <;>
    simp only [main_setup, h1, h2, h3, h4, ne_eq, not_true_eq_false,
      not_false_eq_true, ite_true, ite_false, if_true, if_false,
      List.append_assoc, List.singleton_append, List.cons_append,
      List.nil_append] <;>
    first
      | exact count_pres _ _ (by decide) hx
      | (rw [main_cacerts_count _ _ _ _ _ _ hx hcap]
         all_goals first
           | rfl
           | exact count_pres _ _ (by decide) hx)

/-- Any event other than the cleanup call and (when manual registration is
set) the capability calls occurs in the full trace exactly as often as the
body can emit it; in particular the dispatch body never emits the cleanup
event, which is appended exactly once at the `end:` label. -/
theorem amvp_app_main_count (p : SessionParams) (cfg : APP_CONFIG) (env : Env)
    (x : Event) (hx : x ∉ uncondEmits)
    (hcap : cfg.manual_reg = true ∨
      (x ≠ Event.cap_hash_enable ∧ x ≠ Event.cap_hash_set_domain)) :
    ((amvp_app_main p cfg env).2).count x = List.count x [Event.app_cleanup] := by
  show ((main_setup p cfg env AMVP_SUCCESS []).2 ++ [Event.app_cleanup]).count x = _
  rw [List.count_append, main_setup_count p cfg env _ _ _ hx hcap,
    List.count_nil, Nat.zero_add]

/-! ## Success predicates and reachability reductions

`setupOk` etc. say that the calls of a given phase return `AMVP_SUCCESS`;
the `reach_*` lemmas reduce `main_setup` to the later dispatch phases under
them, collecting the emitted prefix of the trace. -/

/-- Lines 170-227 all succeed (session creation, server/URI setters, the
optional TLS setters, two-factor setup). -/
def setupOk (env : Env) : Prop :=
  env.create_test_session = AMVP_SUCCESS ∧ env.set_server = AMVP_SUCCESS ∧
  env.set_api_context = AMVP_SUCCESS ∧ env.set_path_segment = AMVP_SUCCESS ∧
  env.set_cacerts = AMVP_SUCCESS ∧ env.set_certkey = AMVP_SUCCESS ∧
  env.two_factor_auth = 0

/-- The get-only mark and its save-file setter succeed (lines 233-244). -/
def getOk (env : Env) : Prop :=
  env.mark_as_get_only = AMVP_SUCCESS ∧ env.set_get_save_file = AMVP_SUCCESS

/-- Manual-registration binding and capability registration succeed
(lines 263-276). -/
def regOk (env : Env) : Prop :=
  env.set_json_filename = AMVP_SUCCESS ∧ env.cap_hash_enable = AMVP_SUCCESS ∧
  env.cap_hash_set_domain = AMVP_SUCCESS

/-- FIPS metadata ingestion and binding succeed (lines 325-344). -/
def fipsOk (env : Env) : Prop :=
  env.oe_ingest_metadata = AMVP_SUCCESS ∧
  env.oe_set_fips_validation_metadata = AMVP_SUCCESS

/-- The configuration does not hit the vector-file conflict of line 258. -/
def noConflict (cfg : APP_CONFIG) : Prop :=
  (!cfg.vector_req && cfg.vector_rsp) = false

/-- None of the four terminal inspection modes of lines 278-317 fire. -/
def modesClear (cfg : APP_CONFIG) : Prop :=
  cfg.get_cost = false ∧ cfg.get_reg = false ∧ cfg.kat = false ∧
  (cfg.vector_req && cfg.vector_rsp) = false

def setupEvents : List Event :=
  [Event.create_test_session, Event.set_server, Event.set_api_context,
   Event.set_path_segment, Event.set_cacerts, Event.set_certkey,
   Event.setup_two_factor_auth]

def marksEvents : List Event :=
  [Event.mark_as_sample, Event.mark_as_get_only, Event.set_get_save_file,
   Event.mark_as_post_only, Event.mark_as_delete_only,
   Event.mark_as_request_only]

def regEvents : List Event :=
  [Event.set_json_filename, Event.cap_hash_enable, Event.cap_hash_set_domain]

def fipsEvents : List Event :=
  [Event.oe_ingest_metadata, Event.oe_set_fips_validation_metadata]

def preModesEvents : List Event := setupEvents ++ marksEvents ++ regEvents

def preActionsEvents : List Event := preModesEvents ++ fipsEvents

theorem reach_marks (p : SessionParams) (cfg : APP_CONFIG) (env : Env)
    (rv : Nat) (tr : List Event) (hs : setupOk env) :
    ∃ δ, main_setup p cfg env rv tr = main_marks cfg env 0 (tr ++ δ) ∧
      δ ⊆ setupEvents := by
  obtain ⟨h1, h2, h3, h4, h5, h6, h7⟩ := hs
  by_cases hca : p.ca_chain_file <;> by_cases hck : (p.cert_file && p.key_file) <;>
    simp only [main_setup, main_cacerts, main_certkey, main_two_factor,
      AMVP_SUCCESS, h1, h2, h3, h4, h5, h6, h7, hca, hck, ne_eq,
      not_true_eq_false, not_false_eq_true, ite_true, ite_false,
      Bool.false_eq_true, if_true, if_false, List.append_assoc,
      List.singleton_append, List.cons_append, List.nil_append] <;>
    exact ⟨_, rfl, by decide⟩

set_option maxHeartbeats 2000000 in
theorem reach_reg (cfg : APP_CONFIG) (env : Env) (tr : List Event)
    (hg : getOk env) (hnc : noConflict cfg) :
    ∃ δ, main_marks cfg env 0 tr = main_reg cfg env 0 (tr ++ δ) ∧
      δ ⊆ marksEvents := by
  obtain ⟨hg1, hg2⟩ := hg
  simp only [noConflict] at hnc
  by_cases h1 : cfg.sample <;> by_cases h2 : cfg.get <;>
  by_cases h3 : cfg.save_to <;> by_cases h4 : cfg.post <;>
  by_cases h5 : cfg.delete <;> by_cases h6 : (cfg.vector_req && !cfg.vector_rsp) <;>
    simp only [main_marks, main_marks2, AMVP_SUCCESS, hg1, hg2, hnc, h1, h2,
      h3, h4, h5, h6, ne_eq, not_true_eq_false, not_false_eq_true, ite_true,
      ite_false, Bool.false_eq_true, if_true, if_false, List.append_assoc,
      List.singleton_append, List.cons_append, List.nil_append] <;>
    first
      | exact ⟨_, rfl, by decide⟩
      | exact ⟨[], by simp, by decide⟩

theorem reach_modes_rv (cfg : APP_CONFIG) (env : Env) (rv : Nat)
    (tr : List Event) (hr : regOk env) :
    ∃ δ, main_reg cfg env rv tr =
      main_modes cfg env (if cfg.manual_reg then 0 else rv) (tr ++ δ) ∧
      δ ⊆ regEvents := by
  obtain ⟨hr1, hr2, hr3⟩ := hr
  by_cases h1 : cfg.manual_reg <;> by_cases h2 : cfg.hash <;>
    simp only [main_reg, enable_hash, AMVP_SUCCESS, hr1, hr2, hr3, h1, h2,
      ne_eq, not_true_eq_false, not_false_eq_true, ite_true, ite_false,
      Bool.false_eq_true, if_true, if_false, List.append_assoc,
      List.singleton_append, List.cons_append, List.nil_append] <;>
    first
      | exact ⟨_, rfl, by decide⟩
      | exact ⟨[], by simp, by decide⟩

theorem reach_fips (cfg : APP_CONFIG) (env : Env) (rv : Nat) (tr : List Event)
    (hm : modesClear cfg) : main_modes cfg env rv tr = main_fips cfg env rv tr := by
  obtain ⟨a, b, c, d⟩ := hm
  simp only [main_modes, a, b, c, d, Bool.false_eq_true, ite_false, if_false]

theorem reach_actions_fips (cfg : APP_CONFIG) (env : Env) (rv : Nat)
    (tr : List Event) (hf : fipsOk env) :
    ∃ δ, main_fips cfg env rv tr =
      main_actions cfg env (if cfg.fips_validation then 0 else rv) (tr ++ δ) ∧
      δ ⊆ fipsEvents := by
  obtain ⟨f1, f2⟩ := hf
  by_cases h : cfg.fips_validation <;>
    simp only [main_fips, AMVP_SUCCESS, f1, f2, h, ne_eq, not_true_eq_false,
      not_false_eq_true, ite_true, ite_false, Bool.false_eq_true, if_true,
      if_false, List.append_assoc, List.singleton_append, List.cons_append,
      List.nil_append] <;>
    first
      | exact ⟨_, rfl, by decide⟩
      | exact ⟨[], by simp, by decide⟩

/-- Closed form of the finale (lines 389-401): the exit status is the
cert-request mark status if that flag is set, else the post-resources mark
status if set, else the incoming `rv`; `amvp_run`'s own result is never
consulted. -/
theorem main_finale_eq (cfg : APP_CONFIG) (env : Env) (rv : Nat)
    (tr : List Event) :
    main_finale cfg env rv tr =
      ((if cfg.mod_cert_req then env.mark_as_cert_req
        else if cfg.post_resources then env.mark_as_post_resources else rv),
       tr ++ ((if cfg.post_resources then [Event.mark_as_post_resources] else []) ++
         ((if cfg.mod_cert_req then [Event.mark_as_cert_req] else []) ++
           [Event.run]))) := by
  by_cases h1 : cfg.post_resources <;> by_cases h2 : cfg.mod_cert_req <;>
    simp [main_finale, h1, h2]

/-- When none of the terminal action flags of lines 346-387 is set, the
dispatcher falls through to the finale. -/
theorem reach_finale (cfg : APP_CONFIG) (env : Env) (rv : Nat)
    (tr : List Event) (h1 : cfg.vector_upload = false) (h2 : cfg.put = false)
    (h3 : cfg.get_results = false) (h4 : cfg.resume_session = false)
    (h5 : cfg.cancel_session = false) (h6 : cfg.get_expected = false) :
    main_actions cfg env rv tr = main_finale cfg env rv tr := by
  simp [main_actions, h1, h2, h3, h4, h5, h6]

theorem reach_modes_top (p : SessionParams) (cfg : APP_CONFIG) (env : Env)
    (rv : Nat) (tr : List Event) (hs : setupOk env) (hg : getOk env)
    (hnc : noConflict cfg) (hr : regOk env) :
    ∃ δ, main_setup p cfg env rv tr = main_modes cfg env 0 (tr ++ δ) ∧
      δ ⊆ preModesEvents := by
  obtain ⟨δ1, e1, s1⟩ := reach_marks p cfg env rv tr hs
  obtain ⟨δ2, e2, s2⟩ := reach_reg cfg env (tr ++ δ1) hg hnc
  obtain ⟨δ3, e3, s3⟩ := reach_modes_rv cfg env 0 (tr ++ δ1 ++ δ2) hr
  refine ⟨δ1 ++ δ2 ++ δ3, ?_, ?_⟩
  · rw [e1, e2, e3]
    simp [List.append_assoc]
  · exact List.append_subset.mpr
      ⟨List.append_subset.mpr
        ⟨s1.trans (by decide), s2.trans (by decide)⟩, s3.trans (by decide)⟩

theorem reach_actions_top (p : SessionParams) (cfg : APP_CONFIG) (env : Env)
    (rv : Nat) (tr : List Event) (hs : setupOk env) (hg : getOk env)
    (hnc : noConflict cfg) (hr : regOk env) (hm : modesClear cfg)
    (hf : fipsOk env) :
    ∃ δ, main_setup p cfg env rv tr = main_actions cfg env 0 (tr ++ δ) ∧
      δ ⊆ preActionsEvents := by
  obtain ⟨δ1, e1, s1⟩ := reach_modes_top p cfg env rv tr hs hg hnc hr
  obtain ⟨δ2, e2, s2⟩ := reach_actions_fips cfg env 0 (tr ++ δ1) hf
  refine ⟨δ1 ++ δ2, ?_, ?_⟩
  · rw [e1, reach_fips cfg env 0 (tr ++ δ1) hm, e2]
    simp [List.append_assoc]
  · exact List.append_subset.mpr ⟨s1.trans (by decide), s2.trans (by decide)⟩

/-- Under successful setup, a response file without a request file reaches
the conflict diagnostic of lines 258-261 and terminates with `rv`
unchanged (still `AMVP_SUCCESS`). -/
theorem marks_conflict (cfg : APP_CONFIG) (env : Env) (tr : List Event)
    (hg : getOk env) (hc : (!cfg.vector_req && cfg.vector_rsp) = true) :
    ∃ δ, main_marks cfg env 0 tr = (0, tr ++ δ) ∧
      δ ⊆ marksEvents ++ [Event.print_vector_conflict] ∧
      Event.print_vector_conflict ∈ δ := by
  obtain ⟨hg1, hg2⟩ := hg
  have hreq : cfg.vector_req = false := by
    rcases Bool.and_eq_true_iff.mp hc with ⟨ha, _⟩
    simpa using ha
  have hrsp : cfg.vector_rsp = true := (Bool.and_eq_true_iff.mp hc).2
  by_cases h1 : cfg.sample <;> by_cases h2 : cfg.get <;>
  by_cases h3 : cfg.save_to <;> by_cases h4 : cfg.post <;>
  by_cases h5 : cfg.delete <;>
    simp only [main_marks, main_marks2, AMVP_SUCCESS, hg1, hg2, hreq, hrsp,
      h1, h2, h3, h4, h5, ne_eq, not_true_eq_false, not_false_eq_true,
      Bool.not_false, Bool.not_true, Bool.false_and, Bool.true_and,
      Bool.and_false, Bool.and_true, Bool.and_self, ite_true, ite_false,
      Bool.false_eq_true, if_true, if_false, List.append_assoc,
      List.singleton_append, List.cons_append, List.nil_append] <;>
    exact ⟨_, rfl, by decide, by decide⟩

theorem reach_conflict_top (p : SessionParams) (cfg : APP_CONFIG) (env : Env)
    (hs : setupOk env) (hg : getOk env)
    (hc : (!cfg.vector_req && cfg.vector_rsp) = true) :
    ∃ δ, amvp_app_main p cfg env = (0, δ ++ [Event.app_cleanup]) ∧
      δ ⊆ setupEvents ++ marksEvents ++ [Event.print_vector_conflict] ∧
      Event.print_vector_conflict ∈ δ := by
  obtain ⟨δ1, e1, s1⟩ := reach_marks p cfg env AMVP_SUCCESS [] hs
  obtain ⟨δ2, e2, s2, m2⟩ := marks_conflict cfg env ([] ++ δ1) hg hc
  refine ⟨δ1 ++ δ2, ?_, ?_, ?_⟩
  · show (let s := main_setup p cfg env AMVP_SUCCESS [];
      (s.1, s.2 ++ [Event.app_cleanup])) = _
    rw [e1, e2]
    simp [List.append_assoc]
  · exact List.append_subset.mpr ⟨s1.trans (by decide), s2.trans (by decide)⟩
  · exact List.mem_append_right _ m2

/-! ## Trace-membership preservation: each phase only appends events. -/

theorem main_finale_mem (cfg : APP_CONFIG) (env : Env) (rv : Nat)
    (tr : List Event) (e : Event) (h : e ∈ tr) :
    e ∈ (main_finale cfg env rv tr).2 := by
  rw [main_finale_eq]
  simp [h]

theorem main_actions_mem (cfg : APP_CONFIG) (env : Env) (rv : Nat)
    (tr : List Event) (e : Event) (h : e ∈ tr) :
    e ∈ (main_actions cfg env rv tr).2 := by
  by_cases h1 : cfg.vector_upload <;>
  by_cases h2 : (cfg.empty_alg && cfg.put) <;>
  by_cases h3 : (!cfg.empty_alg && cfg.put) <;>
  by_cases h4 : cfg.get_results <;>
  by_cases h5 : cfg.resume_session <;>
  by_cases h6 : cfg.cancel_session <;>
  by_cases h7 : cfg.get_expected <;>
    simp only [main_actions, h1, h2, h3, h4, h5, h6, h7, ite_true, ite_false,
      Bool.false_eq_true, if_true, if_false] <;>
    first
      | simp [List.mem_append, h]
      | (apply main_finale_mem
         simp [List.mem_append, h])

theorem main_fips_mem (cfg : APP_CONFIG) (env : Env) (rv : Nat)
    (tr : List Event) (e : Event) (h : e ∈ tr) :
    e ∈ (main_fips cfg env rv tr).2 := by
  by_cases h1 : cfg.fips_validation <;>
  by_cases h2 : env.oe_ingest_metadata = AMVP_SUCCESS <;>
  by_cases h3 : env.oe_set_fips_validation_metadata = AMVP_SUCCESS <;>
    simp only [main_fips, h1, h2, h3, ne_eq, not_true_eq_false,
      not_false_eq_true, ite_true, ite_false, Bool.false_eq_true, if_true,
      if_false] <;>
    first
      | simp [List.mem_append, h]
      | (apply main_actions_mem
         simp [List.mem_append, h])

theorem main_modes_mem (cfg : APP_CONFIG) (env : Env) (rv : Nat)
    (tr : List Event) (e : Event) (h : e ∈ tr) :
    e ∈ (main_modes cfg env rv tr).2 := by
  by_cases h1 : cfg.get_cost <;>
  by_cases h2 : cfg.get_reg <;>
  by_cases h3 : env.get_current_registration <;>
  by_cases h4 : cfg.save_to <;>
  by_cases h5 : env.save_string_to_file = 0 <;>
  by_cases h6 : cfg.kat <;>
  by_cases h7 : (cfg.vector_req && cfg.vector_rsp) <;>
    simp only [main_modes, h1, h2, h3, h4, h5, h6, h7, ne_eq,
      not_true_eq_false, not_false_eq_true, Bool.not_true, Bool.not_false,
      ite_true, ite_false, Bool.false_eq_true, if_true, if_false] <;>
    first
      | simp [List.mem_append, h]
      | (apply main_fips_mem
         simp [List.mem_append, h])

theorem main_reg_mem (cfg : APP_CONFIG) (env : Env) (rv : Nat)
    (tr : List Event) (e : Event) (h : e ∈ tr) :
    e ∈ (main_reg cfg env rv tr).2 := by
  by_cases h1 : cfg.manual_reg <;>
  by_cases h2 : env.set_json_filename = AMVP_SUCCESS <;>
  by_cases h3 : cfg.hash <;>
  by_cases h4 : (enable_hash env).1 = AMVP_SUCCESS <;>
    simp only [main_reg, h1, h2, h3, h4, ne_eq,
      not_true_eq_false, not_false_eq_true, ite_true, ite_false,
      Bool.false_eq_true, if_true, if_false] <;>
    first
      | simp [List.mem_append, h]
      | (apply main_modes_mem
         simp [List.mem_append, h])

/-- With manual registration set, `amvp_set_json_filename` is always called
(line 269), whether or not it succeeds. -/
theorem main_reg_json (cfg : APP_CONFIG) (env : Env) (rv : Nat)
    (tr : List Event) (hman : cfg.manual_reg = true) :
    Event.set_json_filename ∈ (main_reg cfg env rv tr).2 := by
  by_cases h2 : env.set_json_filename = AMVP_SUCCESS <;>
    simp only [main_reg, hman, h2, ne_eq, not_true_eq_false,
      not_false_eq_true, ite_true, ite_false, if_true, if_false] <;>
    first
      | simp [List.mem_append]
      | (apply main_modes_mem
         simp [List.mem_append])

/-- With a request file and no response file, `amvp_mark_as_request_only`
is called (line 255) and the conflict branch is not taken. -/
theorem marks2_reqonly (cfg : APP_CONFIG) (env : Env) (rv : Nat)
    (tr : List Event) (hreq : cfg.vector_req = true)
    (hrsp : cfg.vector_rsp = false) :
    Event.mark_as_request_only ∈ (main_marks2 cfg env rv tr).2 := by
  by_cases h1 : cfg.post <;> by_cases h2 : cfg.delete <;>
    simp only [main_marks2, hreq, hrsp, h1, h2, Bool.not_false, Bool.not_true,
      Bool.true_and, Bool.false_and, Bool.and_false, Bool.and_true,
      Bool.and_self, ite_true, ite_false, Bool.false_eq_true, if_true,
      if_false] <;>
    (apply main_reg_mem
     simp [List.mem_append])

theorem marks_reqonly (cfg : APP_CONFIG) (env : Env) (tr : List Event)
    (hg : getOk env) (hreq : cfg.vector_req = true)
    (hrsp : cfg.vector_rsp = false) :
    Event.mark_as_request_only ∈ (main_marks cfg env 0 tr).2 := by
  obtain ⟨hg1, hg2⟩ := hg
  by_cases h1 : cfg.sample <;> by_cases h2 : cfg.get <;>
  by_cases h3 : cfg.save_to <;>
    simp only [main_marks, AMVP_SUCCESS, hg1, hg2, h1, h2, h3, ne_eq,
      not_true_eq_false, not_false_eq_true, ite_true, ite_false,
      Bool.false_eq_true, if_true, if_false] <;>
    exact marks2_reqonly cfg env _ _ hreq hrsp

/-- Reduction from the top of the session flow to the registration step. -/
theorem reach_reg_top (p : SessionParams) (cfg : APP_CONFIG) (env : Env)
    (rv : Nat) (tr : List Event) (hs : setupOk env) (hg : getOk env)
    (hnc : noConflict cfg) :
    ∃ δ, main_setup p cfg env rv tr = main_reg cfg env 0 (tr ++ δ) ∧
      δ ⊆ setupEvents ++ marksEvents := by
  obtain ⟨δ1, e1, s1⟩ := reach_marks p cfg env rv tr hs
  obtain ⟨δ2, e2, s2⟩ := reach_reg cfg env (tr ++ δ1) hg hnc
  refine ⟨δ1 ++ δ2, ?_, ?_⟩
  · rw [e1, e2]
    simp [List.append_assoc]
  · exact List.append_subset.mpr ⟨s1.trans (by decide), s2.trans (by decide)⟩

/-! ## Helpers for the individual claims -/

/-- Dispatch-action calls: the collaborator calls of the mode/action steps
(lines 278-401), as opposed to the setup calls and mode marks of
lines 170-261.  `run` is the live full-run. -/
def actionEvent : Event → Bool
  | Event.get_vector_set_count => true
  | Event.get_current_registration => true
  | Event.save_string_to_file => true
  | Event.load_kat_filename => true
  | Event.run_vectors_from_file => true
  | Event.oe_ingest_metadata => true
  | Event.oe_set_fips_validation_metadata => true
  | Event.upload_vectors_from_file => true
  | Event.put_data_from_file => true
  | Event.mark_as_put_after_test => true
  | Event.get_results_from_server => true
  | Event.resume_test_session => true
  | Event.cancel_test_session => true
  | Event.get_expected_results => true
  | Event.mark_as_post_resources => true
  | Event.mark_as_cert_req => true
  | Event.run => true
  | _ => false

/-- Line 314: with both vector files set and no earlier mode firing, the
vectors are run from the local files and the branch is terminal. -/
theorem modes_offline (cfg : APP_CONFIG) (env : Env) (rv : Nat)
    (tr : List Event) (h1 : cfg.get_cost = false) (h2 : cfg.get_reg = false)
    (h3 : cfg.kat = false) (hb : (cfg.vector_req && cfg.vector_rsp) = true) :
    main_modes cfg env rv tr =
      (env.run_vectors_from_file, tr ++ [Event.run_vectors_from_file]) := by
  simp [main_modes, h1, h2, h3, hb]

/-- Line 309: KAT loading is terminal and stores the library status. -/
theorem modes_kat (cfg : APP_CONFIG) (env : Env) (rv : Nat) (tr : List Event)
    (h1 : cfg.get_cost = false) (h2 : cfg.get_reg = false)
    (h3 : cfg.kat = true) :
    main_modes cfg env rv tr =
      (env.load_kat_filename, tr ++ [Event.load_kat_filename]) := by
  simp [main_modes, h1, h2, h3]

/-- Line 288: `get_reg` with a NULL registration prints and terminates
without assigning `rv`. -/
theorem modes_getreg_null (cfg : APP_CONFIG) (env : Env) (rv : Nat)
    (tr : List Event) (h1 : cfg.get_cost = false) (h2 : cfg.get_reg = true)
    (h3 : env.get_current_registration = false) :
    main_modes cfg env rv tr = (rv, tr ++ [Event.get_current_registration]) := by
  simp [main_modes, h1, h2, h3]

/-- Line 278: `get_cost` is terminal and never assigns `rv`. -/
theorem modes_get_cost (cfg : APP_CONFIG) (env : Env) (rv : Nat)
    (tr : List Event) (h1 : cfg.get_cost = true) :
    main_modes cfg env rv tr = (rv, tr ++ [Event.get_vector_set_count]) := by
  simp [main_modes, h1]

/-- The non-terminal mark statuses of the finale are the only statuses that
can replace a zero `rv` at the end of the default path. -/
theorem finale_rv0 (cfg : APP_CONFIG) (env : Env) (tr : List Event)
    (h1 : env.mark_as_post_resources = 0) (h2 : env.mark_as_cert_req = 0) :
    (main_finale cfg env 0 tr).1 = 0 := by
  rw [main_finale_eq]
  by_cases hc : cfg.mod_cert_req <;> by_cases hp : cfg.post_resources <;>
    simp [hc, hp, h1, h2]

/-- All action statuses of lines 346-401 succeed. -/
def actionsOk (env : Env) : Prop :=
  env.upload_vectors_from_file = 0 ∧ env.put_data_from_file = 0 ∧
  env.get_results_from_server = 0 ∧ env.resume_test_session = 0 ∧
  env.cancel_test_session = 0 ∧ env.get_expected_results = 0 ∧
  env.mark_as_post_resources = 0 ∧ env.mark_as_cert_req = 0

theorem actions_rv0 (cfg : APP_CONFIG) (env : Env) (tr : List Event)
    (ha : actionsOk env) : (main_actions cfg env 0 tr).1 = 0 := by
  obtain ⟨a1, a2, a3, a4, a5, a6, a7, a8⟩ := ha
  by_cases h1 : cfg.vector_upload <;>
  by_cases h2 : (cfg.empty_alg && cfg.put) <;>
  by_cases h3 : (!cfg.empty_alg && cfg.put) <;>
  by_cases h4 : cfg.get_results <;>
  by_cases h5 : cfg.resume_session <;>
  by_cases h6 : cfg.cancel_session <;>
  by_cases h7 : cfg.get_expected <;>
    simp only [main_actions, h1, h2, h3, h4, h5, h6, h7, ite_true, ite_false,
      Bool.false_eq_true, if_true, if_false] <;>
    first
      | assumption
      | exact finale_rv0 cfg env _ a7 a8

theorem fips_rv0 (cfg : APP_CONFIG) (env : Env) (tr : List Event)
    (hf : fipsOk env) (ha : actionsOk env) : (main_fips cfg env 0 tr).1 = 0 := by
  obtain ⟨δ, e, _⟩ := reach_actions_fips cfg env 0 tr hf
  rw [e]
  by_cases h : cfg.fips_validation <;> simp only [h, ite_true, ite_false,
    Bool.false_eq_true, if_true, if_false] <;> exact actions_rv0 cfg env _ ha

theorem modes_rv0 (cfg : APP_CONFIG) (env : Env) (tr : List Event)
    (hkat : env.load_kat_filename = 0) (hrvf : env.run_vectors_from_file = 0)
    (hf : fipsOk env) (ha : actionsOk env) :
    (main_modes cfg env 0 tr).1 = 0 := by
  by_cases h1 : cfg.get_cost <;>
  by_cases h2 : cfg.get_reg <;>
  by_cases h3 : env.get_current_registration <;>
  by_cases h4 : cfg.save_to <;>
  by_cases h5 : env.save_string_to_file = 0 <;>
  by_cases h6 : cfg.kat <;>
  by_cases h7 : (cfg.vector_req && cfg.vector_rsp) <;>
    simp only [main_modes, h1, h2, h3, h4, h5, h6, h7, ne_eq,
      not_true_eq_false, not_false_eq_true, Bool.not_true, Bool.not_false,
      ite_true, ite_false, Bool.false_eq_true, if_true, if_false] <;>
    first
      | rfl
      | assumption
      | exact fips_rv0 cfg env _ hf ha

/-- Every status any call of the flow can return is success
(`get_current_registration` may still be NULL or not). -/
def allOk (env : Env) : Prop :=
  setupOk env ∧ getOk env ∧ regOk env ∧ fipsOk env ∧ actionsOk env ∧
  env.save_string_to_file = 0 ∧ env.load_kat_filename = 0 ∧
  env.run_vectors_from_file = 0 ∧ env.amvp_run = 0

/-! ## Concrete inputs for witnesses and counterexamples -/

/-- No TLS environment variables set. -/
def p0 : SessionParams := {}

/-- All collaborator calls succeed, registration fetch non-NULL. -/
def env0 : Env := {}

/-! ## The claims -/

/-- C7: for every execution in which the session context is created, the
teardown routine (`amvp_cleanup` via `app_cleanup`) is invoked exactly
once before the process returns, as the final event of the trace, on every
path: normal completion, every terminal dispatch branch, and every fatal
error branch. -/
theorem C7_teardown_exactly_once (p : SessionParams) (cfg : APP_CONFIG)
    (env : Env) :
    ((amvp_app_main p cfg env).2).count Event.app_cleanup = 1 ∧
    ∃ t, (amvp_app_main p cfg env).2 = t ++ [Event.app_cleanup] ∧
      Event.app_cleanup ∉ t := by
  have h := amvp_app_main_count p cfg env Event.app_cleanup (by decide)
    (Or.inr ⟨by decide, by decide⟩)
  constructor
  · rw [h]
    decide
  · refine ⟨(main_setup p cfg env AMVP_SUCCESS []).2, rfl, ?_⟩
    have h0 := main_setup_count p cfg env AMVP_SUCCESS [] Event.app_cleanup
      (by decide) (Or.inr ⟨by decide, by decide⟩)
    rw [List.count_nil] at h0
    exact List.count_eq_zero.mp h0

/-- C4: for every configuration with manual registration set, the
capability-registration calls (hash capability enable and domain set) are
never invoked — on any path, even failing ones, and even when the hash
flag is also set — and, whenever the pre-dispatch setup succeeds, the
session is bound to the supplied registration document via
`amvp_set_json_filename`. -/
theorem C4_manual_reg_skips_capabilities (p : SessionParams)
    (cfg : APP_CONFIG) (env : Env) (hman : cfg.manual_reg = true) :
    Event.cap_hash_enable ∉ (amvp_app_main p cfg env).2 ∧
    Event.cap_hash_set_domain ∉ (amvp_app_main p cfg env).2 ∧
    (setupOk env → getOk env → noConflict cfg →
      Event.set_json_filename ∈ (amvp_app_main p cfg env).2) := by
  refine ⟨?_, ?_, ?_⟩
  · have h0 : ((amvp_app_main p cfg env).2).count Event.cap_hash_enable = 0 := by
      rw [amvp_app_main_count p cfg env Event.cap_hash_enable (by decide)
        (Or.inl hman)]
      decide
    exact List.count_eq_zero.mp h0
  · have h0 : ((amvp_app_main p cfg env).2).count Event.cap_hash_set_domain = 0 := by
      rw [amvp_app_main_count p cfg env Event.cap_hash_set_domain (by decide)
        (Or.inl hman)]
      decide
    exact List.count_eq_zero.mp h0
  · intro hs hg hnc
    obtain ⟨δ, e1, _⟩ := reach_reg_top p cfg env AMVP_SUCCESS [] hs hg hnc
    show Event.set_json_filename ∈
      (main_setup p cfg env AMVP_SUCCESS []).2 ++ [Event.app_cleanup]
    rw [e1]
    exact List.mem_append_left _ (main_reg_json cfg env 0 _ hman)

/-- Manual registration together with the hash flag set: capability calls
still absent and the registration document bound. -/
def cfgC4 : APP_CONFIG := { manual_reg := true, hash := true }

theorem C4_manual_reg_skips_capabilities_witness :
    cfgC4.manual_reg = true ∧
    Event.cap_hash_enable ∉ (amvp_app_main p0 cfgC4 env0).2 ∧
    Event.set_json_filename ∈ (amvp_app_main p0 cfgC4 env0).2 :=
  ⟨rfl, (C4_manual_reg_skips_capabilities p0 cfgC4 env0 rfl).1,
    (C4_manual_reg_skips_capabilities p0 cfgC4 env0 rfl).2.2
      ⟨rfl, rfl, rfl, rfl, rfl, rfl, rfl⟩ ⟨rfl, rfl⟩ rfl⟩

/-! ## C3: the seven single-shot inspection modes -/

theorem count_eq_zero_of_subset {x : Event} {l L : List Event}
    (hsub : l ⊆ L) (hx : x ∉ L) : l.count x = 0 :=
  List.count_eq_zero.mpr (fun h => hx (hsub h))

theorem count_mid (δ rest : List Event) (x : Event) (hδ : δ.count x = 0)
    (hrest : rest.count x = 0) : (δ ++ (x :: rest)).count x = 1 := by
  rw [List.count_append, hδ, List.count_cons_self, hrest]

theorem notin_mid (δ rest : List Event) (x e : Event) (hδ : e ∉ δ)
    (hx : e ≠ x) (hrest : e ∉ rest) : e ∉ δ ++ (x :: rest) := by
  simp [List.mem_append, List.mem_cons, hδ, hx, hrest]

/-- Lines 288-307 with a non-NULL or NULL registration: exactly one fetch
call, followed only by the optional save call and its diagnostic. -/
theorem modes_getreg (cfg : APP_CONFIG) (env : Env) (rv : Nat)
    (tr : List Event) (h1 : cfg.get_cost = false) (h2 : cfg.get_reg = true) :
    ∃ s, main_modes cfg env rv tr =
        (rv, tr ++ ([Event.get_current_registration] ++ s)) ∧
      s ⊆ [Event.save_string_to_file, Event.print_reg_save_error] := by
  by_cases h3 : env.get_current_registration <;>
  by_cases h4 : cfg.save_to <;>
  by_cases h5 : env.save_string_to_file = 0 <;>
    simp only [main_modes, h1, h2, h3, h4, h5, Bool.not_true, Bool.not_false,
      ne_eq, not_true_eq_false, not_false_eq_true, ite_true, ite_false,
      Bool.false_eq_true, if_true, if_false, List.append_assoc,
      List.singleton_append, List.cons_append, List.nil_append] <;>
    first
      | exact ⟨_, rfl, by decide⟩
      | exact ⟨[], by simp, by decide⟩

theorem actions_get_results (cfg : APP_CONFIG) (env : Env) (rv : Nat)
    (tr : List Event) (h1 : cfg.vector_upload = false) (h2 : cfg.put = false)
    (h3 : cfg.get_results = true) :
    main_actions cfg env rv tr =
      (env.get_results_from_server, tr ++ [Event.get_results_from_server]) := by
  simp [main_actions, h1, h2, h3]

theorem actions_resume (cfg : APP_CONFIG) (env : Env) (rv : Nat)
    (tr : List Event) (h1 : cfg.vector_upload = false) (h2 : cfg.put = false)
    (h3 : cfg.get_results = false) (h4 : cfg.resume_session = true) :
    main_actions cfg env rv tr =
      (env.resume_test_session, tr ++ [Event.resume_test_session]) := by
  simp [main_actions, h1, h2, h3, h4]

theorem actions_cancel (cfg : APP_CONFIG) (env : Env) (rv : Nat)
    (tr : List Event) (h1 : cfg.vector_upload = false) (h2 : cfg.put = false)
    (h3 : cfg.get_results = false) (h4 : cfg.resume_session = false)
    (h5 : cfg.cancel_session = true) :
    main_actions cfg env rv tr =
      (env.cancel_test_session, tr ++ [Event.cancel_test_session]) := by
  simp [main_actions, h1, h2, h3, h4, h5]

theorem actions_get_expected (cfg : APP_CONFIG) (env : Env) (rv : Nat)
    (tr : List Event) (h1 : cfg.vector_upload = false) (h2 : cfg.put = false)
    (h3 : cfg.get_results = false) (h4 : cfg.resume_session = false)
    (h5 : cfg.cancel_session = false) (h6 : cfg.get_expected = true) :
    main_actions cfg env rv tr =
      (env.get_expected_results, tr ++ [Event.get_expected_results]) := by
  simp [main_actions, h1, h2, h3, h4, h5, h6]

/-- The seven single-shot modes the spec lists in its first testable
property. -/
inductive Mode where
  | get_cost
  | get_reg
  | kat
  | get_results
  | resume_session
  | cancel_session
  | get_expected
deriving DecidableEq

def modeFlag : Mode → APP_CONFIG → Bool
  | Mode.get_cost => fun cfg => cfg.get_cost
  | Mode.get_reg => fun cfg => cfg.get_reg
  | Mode.kat => fun cfg => cfg.kat
  | Mode.get_results => fun cfg => cfg.get_results
  | Mode.resume_session => fun cfg => cfg.resume_session
  | Mode.cancel_session => fun cfg => cfg.cancel_session
  | Mode.get_expected => fun cfg => cfg.get_expected

/-- The collaborator call corresponding to each mode. -/
def modeEvent : Mode → Event
  | Mode.get_cost => Event.get_vector_set_count
  | Mode.get_reg => Event.get_current_registration
  | Mode.kat => Event.load_kat_filename
  | Mode.get_results => Event.get_results_from_server
  | Mode.resume_session => Event.resume_test_session
  | Mode.cancel_session => Event.cancel_test_session
  | Mode.get_expected => Event.get_expected_results

/-- Exactly the mode `m` is set among the seven, and no other
mode-selecting flag (vector files, PUT, vector upload) interferes. -/
def onlyMode (m : Mode) (cfg : APP_CONFIG) : Prop :=
  (∀ m', modeFlag m' cfg = decide (m' = m)) ∧ cfg.vector_req = false ∧
  cfg.vector_rsp = false ∧ cfg.put = false ∧ cfg.vector_upload = false

/-- C3: for every configuration with exactly one mode flag among get-cost,
get-registration, kat-load, get-results, resume, cancel, and get-expected
set (no other mode-selecting flag set, setup and registration succeeding),
the dispatcher invokes exactly one corresponding collaborator call and
terminates without ever reaching the default full-run step (`amvp_run`). -/
theorem C3_single_mode_dispatch (m : Mode) (p : SessionParams)
    (cfg : APP_CONFIG) (env : Env) (hs : setupOk env) (hg : getOk env)
    (hr : regOk env) (hf : fipsOk env) (hm : onlyMode m cfg) :
    ((amvp_app_main p cfg env).2).count (modeEvent m) = 1 ∧
    Event.run ∉ (amvp_app_main p cfg env).2 := by
  obtain ⟨hflags, hreq, hrsp, hput, hupl⟩ := hm
  have h1 := hflags Mode.get_cost
  have h2 := hflags Mode.get_reg
  have h3 := hflags Mode.kat
  have h4 := hflags Mode.get_results
  have h5 := hflags Mode.resume_session
  have h6 := hflags Mode.cancel_session
  have h7 := hflags Mode.get_expected
  simp only [modeFlag] at h1 h2 h3 h4 h5 h6 h7
  have hnc : noConflict cfg := by simp [noConflict, hreq, hrsp]
  have hclear : (cfg.vector_req && cfg.vector_rsp) = false := by
    simp [hreq, hrsp]
  show ((main_setup p cfg env AMVP_SUCCESS []).2 ++
      [Event.app_cleanup]).count (modeEvent m) = 1 ∧
    Event.run ∉ (main_setup p cfg env AMVP_SUCCESS []).2 ++ [Event.app_cleanup]
  cases m
  case get_cost =>
    simp at h1 h2 h3 h4 h5 h6 h7
    obtain ⟨δ, e1, s1⟩ := reach_modes_top p cfg env AMVP_SUCCESS [] hs hg hnc hr
    rw [List.nil_append] at e1
    rw [e1, modes_get_cost cfg env 0 δ h1]
    dsimp only [modeEvent]
    constructor
    · rw [List.append_assoc]
      exact count_mid δ _ _ (count_eq_zero_of_subset s1 (by decide)) (by decide)
    · rw [List.append_assoc]
      exact notin_mid δ _ _ _ (fun hh => absurd (s1 hh) (by decide))
        (by decide) (by decide)
  case get_reg =>
    simp at h1 h2 h3 h4 h5 h6 h7
    obtain ⟨δ, e1, s1⟩ := reach_modes_top p cfg env AMVP_SUCCESS [] hs hg hnc hr
    rw [List.nil_append] at e1
    obtain ⟨s, e2, s2⟩ := modes_getreg cfg env 0 δ h1 h2
    rw [e1, e2]
    dsimp only [modeEvent]
    constructor
    · rw [List.append_assoc, List.append_assoc, List.singleton_append]
      exact count_mid δ (s ++ [Event.app_cleanup]) _
        (count_eq_zero_of_subset s1 (by decide))
        (by rw [List.count_append, count_eq_zero_of_subset s2 (by decide)]
            decide)
    · rw [List.append_assoc, List.append_assoc, List.singleton_append]
      refine notin_mid δ (s ++ [Event.app_cleanup]) _ _
        (fun hh => absurd (s1 hh) (by decide)) (by decide) ?_
      intro hh
      rcases List.mem_append.mp hh with hh | hh
      · exact absurd (s2 hh) (by decide)
      · exact absurd hh (by decide)
  case kat =>
    simp at h1 h2 h3 h4 h5 h6 h7
    obtain ⟨δ, e1, s1⟩ := reach_modes_top p cfg env AMVP_SUCCESS [] hs hg hnc hr
    rw [List.nil_append] at e1
    rw [e1, modes_kat cfg env 0 δ h1 h2 h3]
    dsimp only [modeEvent]
    constructor
    · rw [List.append_assoc]
      exact count_mid δ _ _ (count_eq_zero_of_subset s1 (by decide)) (by decide)
    · rw [List.append_assoc]
      exact notin_mid δ _ _ _ (fun hh => absurd (s1 hh) (by decide))
        (by decide) (by decide)
  case get_results =>
    simp at h1 h2 h3 h4 h5 h6 h7
    obtain ⟨δ, e1, s1⟩ := reach_actions_top p cfg env AMVP_SUCCESS [] hs hg hnc
      hr ⟨h1, h2, h3, hclear⟩ hf
    rw [List.nil_append] at e1
    rw [e1, actions_get_results cfg env 0 δ hupl hput h4]
    dsimp only [modeEvent]
    constructor
    · rw [List.append_assoc]
      exact count_mid δ _ _ (count_eq_zero_of_subset s1 (by decide)) (by decide)
    · rw [List.append_assoc]
      exact notin_mid δ _ _ _ (fun hh => absurd (s1 hh) (by decide))
        (by decide) (by decide)
  case resume_session =>
    simp at h1 h2 h3 h4 h5 h6 h7
    obtain ⟨δ, e1, s1⟩ := reach_actions_top p cfg env AMVP_SUCCESS [] hs hg hnc
      hr ⟨h1, h2, h3, hclear⟩ hf
    rw [List.nil_append] at e1
    rw [e1, actions_resume cfg env 0 δ hupl hput h4 h5]
    dsimp only [modeEvent]
    constructor
    · rw [List.append_assoc]
      exact count_mid δ _ _ (count_eq_zero_of_subset s1 (by decide)) (by decide)
    · rw [List.append_assoc]
      exact notin_mid δ _ _ _ (fun hh => absurd (s1 hh) (by decide))
        (by decide) (by decide)
  case cancel_session =>
    simp at h1 h2 h3 h4 h5 h6 h7
    obtain ⟨δ, e1, s1⟩ := reach_actions_top p cfg env AMVP_SUCCESS [] hs hg hnc
      hr ⟨h1, h2, h3, hclear⟩ hf
    rw [List.nil_append] at e1
    rw [e1, actions_cancel cfg env 0 δ hupl hput h4 h5 h6]
    dsimp only [modeEvent]
    constructor
    · rw [List.append_assoc]
      exact count_mid δ _ _ (count_eq_zero_of_subset s1 (by decide)) (by decide)
    · rw [List.append_assoc]
      exact notin_mid δ _ _ _ (fun hh => absurd (s1 hh) (by decide))
        (by decide) (by decide)
  case get_expected =>
    simp at h1 h2 h3 h4 h5 h6 h7
    obtain ⟨δ, e1, s1⟩ := reach_actions_top p cfg env AMVP_SUCCESS [] hs hg hnc
      hr ⟨h1, h2, h3, hclear⟩ hf
    rw [List.nil_append] at e1
    rw [e1, actions_get_expected cfg env 0 δ hupl hput h4 h5 h6 h7]
    dsimp only [modeEvent]
    constructor
    · rw [List.append_assoc]
      exact count_mid δ _ _ (count_eq_zero_of_subset s1 (by decide)) (by decide)
    · rw [List.append_assoc]
      exact notin_mid δ _ _ _ (fun hh => absurd (s1 hh) (by decide))
        (by decide) (by decide)

/-- KAT-load mode alone. -/
def cfgC3 : APP_CONFIG := { kat := true }

theorem C3_single_mode_dispatch_witness :
    setupOk env0 ∧ getOk env0 ∧ regOk env0 ∧ fipsOk env0 ∧
    onlyMode Mode.kat cfgC3 ∧
    (((amvp_app_main p0 cfgC3 env0).2).count (modeEvent Mode.kat) = 1 ∧
      Event.run ∉ (amvp_app_main p0 cfgC3 env0).2) :=
  ⟨⟨rfl, rfl, rfl, rfl, rfl, rfl, rfl⟩, ⟨rfl, rfl⟩, ⟨rfl, rfl, rfl⟩,
    ⟨rfl, rfl⟩, ⟨fun m' => by cases m' <;> rfl, rfl, rfl, rfl, rfl⟩,
    C3_single_mode_dispatch Mode.kat p0 cfgC3 env0
      ⟨rfl, rfl, rfl, rfl, rfl, rfl, rfl⟩ ⟨rfl, rfl⟩ ⟨rfl, rfl, rfl⟩
      ⟨rfl, rfl⟩
      ⟨fun m' => by cases m' <;> rfl, rfl, rfl, rfl, rfl⟩⟩

/-- Line 352: PUT with an empty algorithm list is a direct, terminal
submit. -/
theorem actions_put_empty (cfg : APP_CONFIG) (env : Env) (rv : Nat)
    (tr : List Event) (h1 : cfg.vector_upload = false)
    (h2 : cfg.empty_alg = true) (h3 : cfg.put = true) :
    main_actions cfg env rv tr =
      (env.put_data_from_file, tr ++ [Event.put_data_from_file]) := by
  simp [main_actions, h1, h2, h3]

/-- Line 357: PUT with a non-empty algorithm list marks and falls through
to the finale. -/
theorem actions_put_after (cfg : APP_CONFIG) (env : Env) (rv : Nat)
    (tr : List Event) (h1 : cfg.vector_upload = false)
    (h2 : cfg.empty_alg = false) (h3 : cfg.put = true)
    (h4 : cfg.get_results = false) (h5 : cfg.resume_session = false)
    (h6 : cfg.cancel_session = false) (h7 : cfg.get_expected = false) :
    main_actions cfg env rv tr =
      main_finale cfg env rv (tr ++ [Event.mark_as_put_after_test]) := by
  simp [main_actions, h1, h2, h3, h4, h5, h6, h7]

/-- The events the finale can append besides the live run. -/
theorem finale_suffix_sub (cfg : APP_CONFIG) :
    ((if cfg.post_resources then [Event.mark_as_post_resources] else []) ++
      ((if cfg.mod_cert_req then [Event.mark_as_cert_req] else []) ++
        [Event.run])) ⊆
      [Event.mark_as_post_resources, Event.mark_as_cert_req, Event.run] := by
  by_cases hp : cfg.post_resources <;> by_cases hc : cfg.mod_cert_req <;>
    simp [hp, hc] <;> decide

theorem finale_suffix_run (cfg : APP_CONFIG) :
    Event.run ∈
      ((if cfg.post_resources then [Event.mark_as_post_resources] else []) ++
        ((if cfg.mod_cert_req then [Event.mark_as_cert_req] else []) ++
          [Event.run])) := by
  by_cases hp : cfg.post_resources <;> by_cases hc : cfg.mod_cert_req <;>
    simp [hp, hc]

/-- C5: for every configuration with the PUT flag set (setup succeeding,
no earlier terminal mode): with an empty algorithm list, dispatch performs
the direct submit (`amvp_put_data_from_file`), records its status, and
terminates without the deferred mark and without the live run; with a
non-empty algorithm list (and no later terminal mode), dispatch issues the
deferred mark (`amvp_mark_as_put_after_test`), never the direct submit,
and continues to the default run step. -/
theorem C5_put_bifurcation (p : SessionParams) (cfg : APP_CONFIG) (env : Env)
    (hs : setupOk env) (hg : getOk env) (hnc : noConflict cfg)
    (hr : regOk env) (hm : modesClear cfg) (hf : fipsOk env)
    (hupl : cfg.vector_upload = false) (hput : cfg.put = true) :
    (cfg.empty_alg = true →
      Event.put_data_from_file ∈ (amvp_app_main p cfg env).2 ∧
      Event.mark_as_put_after_test ∉ (amvp_app_main p cfg env).2 ∧
      Event.run ∉ (amvp_app_main p cfg env).2 ∧
      (amvp_app_main p cfg env).1 = env.put_data_from_file) ∧
    (cfg.empty_alg = false → cfg.get_results = false →
      cfg.resume_session = false → cfg.cancel_session = false →
      cfg.get_expected = false →
      Event.mark_as_put_after_test ∈ (amvp_app_main p cfg env).2 ∧
      Event.put_data_from_file ∉ (amvp_app_main p cfg env).2 ∧
      Event.run ∈ (amvp_app_main p cfg env).2) := by
  obtain ⟨δ, e1, s1⟩ := reach_actions_top p cfg env AMVP_SUCCESS [] hs hg hnc
    hr hm hf
  rw [List.nil_append] at e1
  constructor
  · intro hemp
    show Event.put_data_from_file ∈
        (main_setup p cfg env AMVP_SUCCESS []).2 ++ [Event.app_cleanup] ∧
      Event.mark_as_put_after_test ∉
        (main_setup p cfg env AMVP_SUCCESS []).2 ++ [Event.app_cleanup] ∧
      Event.run ∉
        (main_setup p cfg env AMVP_SUCCESS []).2 ++ [Event.app_cleanup] ∧
      (main_setup p cfg env AMVP_SUCCESS []).1 = env.put_data_from_file
    rw [e1, actions_put_empty cfg env 0 δ hupl hemp hput]
    refine ⟨by simp, ?_, ?_, rfl⟩
    · rw [List.append_assoc]
      exact notin_mid δ _ _ _ (fun hh => absurd (s1 hh) (by decide))
        (by decide) (by decide)
    · rw [List.append_assoc]
      exact notin_mid δ _ _ _ (fun hh => absurd (s1 hh) (by decide))
        (by decide) (by decide)
  · intro hemp h4 h5 h6 h7
    show Event.mark_as_put_after_test ∈
        (main_setup p cfg env AMVP_SUCCESS []).2 ++ [Event.app_cleanup] ∧
      Event.put_data_from_file ∉
        (main_setup p cfg env AMVP_SUCCESS []).2 ++ [Event.app_cleanup] ∧
      Event.run ∈
        (main_setup p cfg env AMVP_SUCCESS []).2 ++ [Event.app_cleanup]
    rw [e1, actions_put_after cfg env 0 δ hupl hemp hput h4 h5 h6 h7,
      main_finale_eq]
    refine ⟨by simp, ?_, ?_⟩
    · intro hh
      rcases List.mem_append.mp hh with hh | hh
      · rcases List.mem_append.mp hh with hh | hh
        · rcases List.mem_append.mp hh with hh | hh
          · exact absurd (s1 hh) (by decide)
          · exact absurd hh (by decide)
        · exact absurd (finale_suffix_sub cfg hh) (by decide)
      · exact absurd hh (by decide)
    · exact List.mem_append_left _
        (List.mem_append_right _ (finale_suffix_run cfg))

/-- PUT with an empty algorithm list. -/
def cfgC5 : APP_CONFIG := { put := true, empty_alg := true }

theorem C5_put_bifurcation_witness :
    setupOk env0 ∧ getOk env0 ∧ noConflict cfgC5 ∧ regOk env0 ∧
    modesClear cfgC5 ∧ fipsOk env0 ∧ cfgC5.vector_upload = false ∧
    cfgC5.put = true ∧ cfgC5.empty_alg = true ∧
    (Event.put_data_from_file ∈ (amvp_app_main p0 cfgC5 env0).2 ∧
      Event.mark_as_put_after_test ∉ (amvp_app_main p0 cfgC5 env0).2 ∧
      Event.run ∉ (amvp_app_main p0 cfgC5 env0).2 ∧
      (amvp_app_main p0 cfgC5 env0).1 = env0.put_data_from_file) :=
  ⟨⟨rfl, rfl, rfl, rfl, rfl, rfl, rfl⟩, ⟨rfl, rfl⟩, rfl, ⟨rfl, rfl, rfl⟩,
    ⟨rfl, rfl, rfl, rfl⟩, ⟨rfl, rfl⟩, rfl, rfl, rfl,
    (C5_put_bifurcation p0 cfgC5 env0 ⟨rfl, rfl, rfl, rfl, rfl, rfl, rfl⟩
      ⟨rfl, rfl⟩ rfl ⟨rfl, rfl, rfl⟩ ⟨rfl, rfl, rfl, rfl⟩ ⟨rfl, rfl⟩ rfl
      rfl).1 rfl⟩

/-- The default fall-through path: no terminal flag fires, the optional
side marks run, then `amvp_run`; the exit status is the last mark status
(or success), never `amvp_run`'s own result. -/
theorem default_path (p : SessionParams) (cfg : APP_CONFIG) (env : Env)
    (hs : setupOk env) (hg : getOk env) (hnc : noConflict cfg)
    (hr : regOk env) (hm : modesClear cfg) (hf : fipsOk env)
    (h1 : cfg.vector_upload = false) (h2 : cfg.put = false)
    (h3 : cfg.get_results = false) (h4 : cfg.resume_session = false)
    (h5 : cfg.cancel_session = false) (h6 : cfg.get_expected = false) :
    ∃ δ, amvp_app_main p cfg env =
      ((if cfg.mod_cert_req then env.mark_as_cert_req
        else if cfg.post_resources then env.mark_as_post_resources else 0),
       δ ++ ((if cfg.post_resources then [Event.mark_as_post_resources] else []) ++
         ((if cfg.mod_cert_req then [Event.mark_as_cert_req] else []) ++
           [Event.run])) ++ [Event.app_cleanup]) ∧
      δ ⊆ preActionsEvents := by
  obtain ⟨δ, e1, s1⟩ := reach_actions_top p cfg env AMVP_SUCCESS [] hs hg hnc
    hr hm hf
  rw [List.nil_append] at e1
  refine ⟨δ, ?_, s1⟩
  show ((main_setup p cfg env AMVP_SUCCESS []).1,
    (main_setup p cfg env AMVP_SUCCESS []).2 ++ [Event.app_cleanup]) = _
  rw [e1, reach_finale cfg env 0 δ h1 h2 h3 h4 h5 h6, main_finale_eq]

/-- C6: for every configuration on which no terminal step fires first, the
post-resources and mark-cert-request actions, when set, execute but do not
short-circuit: their status is recorded in `rv` but execution always
continues to the default full-run step, even when that status is
non-success (no assumption is made on the two mark statuses). -/
theorem C6_side_actions_nonterminal (p : SessionParams) (cfg : APP_CONFIG)
    (env : Env) (hs : setupOk env) (hg : getOk env) (hnc : noConflict cfg)
    (hr : regOk env) (hm : modesClear cfg) (hf : fipsOk env)
    (h1 : cfg.vector_upload = false) (h2 : cfg.put = false)
    (h3 : cfg.get_results = false) (h4 : cfg.resume_session = false)
    (h5 : cfg.cancel_session = false) (h6 : cfg.get_expected = false) :
    (cfg.post_resources = true →
      Event.mark_as_post_resources ∈ (amvp_app_main p cfg env).2) ∧
    (cfg.mod_cert_req = true →
      Event.mark_as_cert_req ∈ (amvp_app_main p cfg env).2) ∧
    Event.run ∈ (amvp_app_main p cfg env).2 ∧
    (amvp_app_main p cfg env).1 =
      (if cfg.mod_cert_req then env.mark_as_cert_req
       else if cfg.post_resources then env.mark_as_post_resources else 0) := by
  obtain ⟨δ, e, _⟩ := default_path p cfg env hs hg hnc hr hm hf h1 h2 h3 h4 h5 h6
  refine ⟨?_, ?_, ?_, by rw [e]⟩
  · intro hp
    rw [e]
    simp [hp, List.mem_append]
  · intro hc
    rw [e]
    simp [hc, List.mem_append]
  · rw [e]
    simp [List.mem_append]

/-- Post-resources set with a failing mark status. -/
def cfgC6 : APP_CONFIG := { post_resources := true }

/-- The post-resources mark fails with status 5; everything else
succeeds. -/
def envC6 : Env := { mark_as_post_resources := 5 }

theorem C6_side_actions_nonterminal_witness :
    setupOk envC6 ∧ getOk envC6 ∧ noConflict cfgC6 ∧ regOk envC6 ∧
    modesClear cfgC6 ∧ fipsOk envC6 ∧
    (Event.mark_as_post_resources ∈ (amvp_app_main p0 cfgC6 envC6).2 ∧
      Event.run ∈ (amvp_app_main p0 cfgC6 envC6).2 ∧
      (amvp_app_main p0 cfgC6 envC6).1 = 5) :=
  ⟨⟨rfl, rfl, rfl, rfl, rfl, rfl, rfl⟩, ⟨rfl, rfl⟩, rfl, ⟨rfl, rfl, rfl⟩,
    ⟨rfl, rfl, rfl, rfl⟩, ⟨rfl, rfl⟩,
    (C6_side_actions_nonterminal p0 cfgC6 envC6
        ⟨rfl, rfl, rfl, rfl, rfl, rfl, rfl⟩ ⟨rfl, rfl⟩ rfl ⟨rfl, rfl, rfl⟩
        ⟨rfl, rfl, rfl, rfl⟩ ⟨rfl, rfl⟩ rfl rfl rfl rfl rfl rfl).1 rfl,
    (C6_side_actions_nonterminal p0 cfgC6 envC6
        ⟨rfl, rfl, rfl, rfl, rfl, rfl, rfl⟩ ⟨rfl, rfl⟩ rfl ⟨rfl, rfl, rfl⟩
        ⟨rfl, rfl, rfl, rfl⟩ ⟨rfl, rfl⟩ rfl rfl rfl rfl rfl rfl).2.2.1,
    (C6_side_actions_nonterminal p0 cfgC6 envC6
        ⟨rfl, rfl, rfl, rfl, rfl, rfl, rfl⟩ ⟨rfl, rfl⟩ rfl ⟨rfl, rfl, rfl⟩
        ⟨rfl, rfl, rfl, rfl⟩ ⟨rfl, rfl⟩ rfl rfl rfl rfl rfl rfl).2.2.2⟩

/-- C10: for every configuration that reaches the default full-run step,
the status returned by `amvp_run` is discarded: the exit status equals the
last status recorded by an earlier step (the cert-request mark if set, else
the post-resources mark if set, else success) and is unchanged under any
value of `amvp_run`'s result. -/
theorem C10_run_status_discarded (p : SessionParams) (cfg : APP_CONFIG)
    (env : Env) (hs : setupOk env) (hg : getOk env) (hnc : noConflict cfg)
    (hr : regOk env) (hm : modesClear cfg) (hf : fipsOk env)
    (h1 : cfg.vector_upload = false) (h2 : cfg.put = false)
    (h3 : cfg.get_results = false) (h4 : cfg.resume_session = false)
    (h5 : cfg.cancel_session = false) (h6 : cfg.get_expected = false) :
    (amvp_app_main p cfg env).1 =
      (if cfg.mod_cert_req then env.mark_as_cert_req
       else if cfg.post_resources then env.mark_as_post_resources else 0) ∧
    Event.run ∈ (amvp_app_main p cfg env).2 ∧
    ∀ k, (amvp_app_main p cfg { env with amvp_run := k }).1 =
      (amvp_app_main p cfg env).1 := by
  obtain ⟨δ, e, _⟩ := default_path p cfg env hs hg hnc hr hm hf h1 h2 h3 h4 h5 h6
  refine ⟨by rw [e], by rw [e]; simp [List.mem_append], fun k => ?_⟩
  obtain ⟨δ2, e2, _⟩ := default_path p cfg { env with amvp_run := k } hs hg
    hnc hr hm hf h1 h2 h3 h4 h5 h6
  rw [e, e2]

/-- `amvp_run` would fail with status 9; both side marks set with distinct
failing statuses. -/
def cfgC10 : APP_CONFIG := { post_resources := true, mod_cert_req := true }

def envC10 : Env :=
  { mark_as_post_resources := 3
    mark_as_cert_req := 7
    amvp_run := 9 }

theorem C10_run_status_discarded_witness :
    setupOk envC10 ∧ getOk envC10 ∧ noConflict cfgC10 ∧ regOk envC10 ∧
    modesClear cfgC10 ∧ fipsOk envC10 ∧
    ((amvp_app_main p0 cfgC10 envC10).1 = 7 ∧
      Event.run ∈ (amvp_app_main p0 cfgC10 envC10).2) :=
  ⟨⟨rfl, rfl, rfl, rfl, rfl, rfl, rfl⟩, ⟨rfl, rfl⟩, rfl, ⟨rfl, rfl, rfl⟩,
    ⟨rfl, rfl, rfl, rfl⟩, ⟨rfl, rfl⟩,
    (C10_run_status_discarded p0 cfgC10 envC10
        ⟨rfl, rfl, rfl, rfl, rfl, rfl, rfl⟩ ⟨rfl, rfl⟩ rfl ⟨rfl, rfl, rfl⟩
        ⟨rfl, rfl, rfl, rfl⟩ ⟨rfl, rfl⟩ rfl rfl rfl rfl rfl rfl).1,
    (C10_run_status_discarded p0 cfgC10 envC10
        ⟨rfl, rfl, rfl, rfl, rfl, rfl, rfl⟩ ⟨rfl, rfl⟩ rfl ⟨rfl, rfl, rfl⟩
        ⟨rfl, rfl, rfl, rfl⟩ ⟨rfl, rfl⟩ rfl rfl rfl rfl rfl rfl).2.1⟩

/-- If either capability call fails, `enable_hash` returns non-success. -/
theorem enable_hash_fail (env : Env)
    (hfail : env.cap_hash_enable ≠ AMVP_SUCCESS ∨
      env.cap_hash_set_domain ≠ AMVP_SUCCESS) :
    (enable_hash env).1 ≠ AMVP_SUCCESS := by
  by_cases h : env.cap_hash_enable = AMVP_SUCCESS
  · rcases hfail with hf | hf
    · exact absurd h hf
    · simp [enable_hash, h, hf]
  · simp [enable_hash, h]

/-- A failing `enable_hash` makes line 275 jump to `end:` with `main`'s
`rv` unchanged. -/
theorem reg_hash_fail (cfg : APP_CONFIG) (env : Env) (rv : Nat)
    (tr : List Event) (hman : cfg.manual_reg = false) (hhash : cfg.hash = true)
    (h1 : (enable_hash env).1 ≠ AMVP_SUCCESS) :
    main_reg cfg env rv tr = (rv, tr ++ (enable_hash env).2) := by
  simp [main_reg, hman, hhash, h1]

/-- A failing first capability call short-circuits the second
(`CHECK_ENABLE_CAP_RV` at line 417). -/
theorem enable_hash_shortcircuit (env : Env)
    (h : env.cap_hash_enable ≠ AMVP_SUCCESS) :
    (enable_hash env).2 = [Event.cap_hash_enable] := by
  simp [enable_hash, h]

/-- C9: any non-success status from a capability-registration call (hash
enable or domain set) short-circuits the remaining registration calls and
aborts the run: no dispatch action executes, the live run is never
reached, and control goes directly to teardown. -/
theorem C9_registration_failure_aborts (p : SessionParams)
    (cfg : APP_CONFIG) (env : Env) (hs : setupOk env) (hg : getOk env)
    (hnc : noConflict cfg) (hman : cfg.manual_reg = false)
    (hhash : cfg.hash = true)
    (hfail : env.cap_hash_enable ≠ AMVP_SUCCESS ∨
      env.cap_hash_set_domain ≠ AMVP_SUCCESS) :
    (∀ e ∈ (amvp_app_main p cfg env).2, actionEvent e = false) ∧
    Event.run ∉ (amvp_app_main p cfg env).2 ∧
    (env.cap_hash_enable ≠ AMVP_SUCCESS →
      Event.cap_hash_set_domain ∉ (amvp_app_main p cfg env).2) := by
  obtain ⟨δ, e1, s1⟩ := reach_reg_top p cfg env AMVP_SUCCESS [] hs hg hnc
  rw [List.nil_append] at e1
  have e2 := reg_hash_fail cfg env 0 δ hman hhash (enable_hash_fail env hfail)
  have hall : ∀ e ∈ (amvp_app_main p cfg env).2, actionEvent e = false := by
    show ∀ e ∈ (main_setup p cfg env AMVP_SUCCESS []).2 ++ [Event.app_cleanup],
      actionEvent e = false
    rw [e1, e2]
    have hact1 : ∀ x ∈ setupEvents ++ marksEvents, actionEvent x = false := by
      decide
    have hact2 : ∀ x ∈ [Event.cap_hash_enable, Event.cap_hash_set_domain],
        actionEvent x = false := by decide
    intro e he
    rcases List.mem_append.mp he with he | he
    · rcases List.mem_append.mp he with he | he
      · exact hact1 e (s1 he)
      · exact hact2 e (enable_hash_sub env he)
    · have := List.mem_singleton.mp he
      subst this
      rfl
  refine ⟨hall, ?_, ?_⟩
  · intro hmem
    exact absurd (hall Event.run hmem) (by decide)
  · intro henf hmem
    revert hmem
    show Event.cap_hash_set_domain ∉
      (main_setup p cfg env AMVP_SUCCESS []).2 ++ [Event.app_cleanup]
    rw [e1, e2, enable_hash_shortcircuit env henf, List.append_assoc]
    exact notin_mid δ _ _ _ (fun hh => absurd (s1 hh) (by decide))
      (by decide) (by decide)

/-- Hash registration requested, capability-enable fails with status 3. -/
def cfgC9 : APP_CONFIG := { hash := true }

def envC9 : Env := { cap_hash_enable := 3 }

theorem C9_registration_failure_aborts_witness :
    setupOk envC9 ∧ getOk envC9 ∧ noConflict cfgC9 ∧
    cfgC9.manual_reg = false ∧ cfgC9.hash = true ∧
    envC9.cap_hash_enable ≠ AMVP_SUCCESS ∧
    (Event.run ∉ (amvp_app_main p0 cfgC9 envC9).2 ∧
      Event.cap_hash_set_domain ∉ (amvp_app_main p0 cfgC9 envC9).2) :=
  ⟨⟨rfl, rfl, rfl, rfl, rfl, rfl, rfl⟩, ⟨rfl, rfl⟩, rfl, rfl, rfl,
    by decide,
    (C9_registration_failure_aborts p0 cfgC9 envC9
        ⟨rfl, rfl, rfl, rfl, rfl, rfl, rfl⟩ ⟨rfl, rfl⟩ rfl rfl rfl
        (Or.inl (by decide))).2.1,
    (C9_registration_failure_aborts p0 cfgC9 envC9
        ⟨rfl, rfl, rfl, rfl, rfl, rfl, rfl⟩ ⟨rfl, rfl⟩ rfl rfl rfl
        (Or.inl (by decide))).2.2 (by decide)⟩

/-! ## C1: the vector-file pair logic -/

/-- Request file set, response file unset. -/
def cfgC1req : APP_CONFIG := { vector_req := true }

/-- C1 counterexample: with only the vector-request file set (all
collaborator calls succeeding), dispatch does NOT terminate with the
configuration-conflict diagnostic; it marks the session request-only and
reaches the live-run call.  This refutes the claim that any single-file
configuration conflicts before any other action. -/
theorem C1_counterexample :
    cfgC1req.vector_req = true ∧ cfgC1req.vector_rsp = false ∧
    Event.print_vector_conflict ∉ (amvp_app_main p0 cfgC1req env0).2 ∧
    Event.mark_as_request_only ∈ (amvp_app_main p0 cfgC1req env0).2 ∧
    Event.run ∈ (amvp_app_main p0 cfgC1req env0).2 := by
  decide

/-- C1 amended: (a) a response file without a request file prints the
conflict diagnostic, terminates with no dispatch-action call (in
particular no network action) and leaves the exit status at success;
(b) a request file without a response file is not a conflict: the session
is marked request-only and dispatch continues; (c) with both files set and
no earlier terminal mode, the vectors are run from the local files,
terminally, and the live-run call is never issued. -/
theorem C1_vector_files_amended (p : SessionParams) (cfg : APP_CONFIG)
    (env : Env) (hs : setupOk env) (hg : getOk env) :
    ((!cfg.vector_req && cfg.vector_rsp) = true →
      Event.print_vector_conflict ∈ (amvp_app_main p cfg env).2 ∧
      (∀ e ∈ (amvp_app_main p cfg env).2, actionEvent e = false) ∧
      (amvp_app_main p cfg env).1 = 0) ∧
    (cfg.vector_req = true → cfg.vector_rsp = false →
      Event.mark_as_request_only ∈ (amvp_app_main p cfg env).2) ∧
    (cfg.vector_req = true → cfg.vector_rsp = true → regOk env →
      cfg.get_cost = false → cfg.get_reg = false → cfg.kat = false →
      Event.run_vectors_from_file ∈ (amvp_app_main p cfg env).2 ∧
      Event.run ∉ (amvp_app_main p cfg env).2 ∧
      (amvp_app_main p cfg env).1 = env.run_vectors_from_file) := by
  refine ⟨?_, ?_, ?_⟩
  · intro hc
    obtain ⟨δ, e, sδ, mδ⟩ := reach_conflict_top p cfg env hs hg hc
    rw [e]
    refine ⟨List.mem_append_left _ mδ, ?_, rfl⟩
    have hact : ∀ x ∈ setupEvents ++ marksEvents ++
        [Event.print_vector_conflict], actionEvent x = false := by decide
    intro x hx
    rcases List.mem_append.mp hx with hx | hx
    · exact hact x (sδ hx)
    · have := List.mem_singleton.mp hx
      subst this
      rfl
  · intro hreq hrsp
    obtain ⟨δ, e1, _⟩ := reach_marks p cfg env AMVP_SUCCESS [] hs
    show Event.mark_as_request_only ∈
      (main_setup p cfg env AMVP_SUCCESS []).2 ++ [Event.app_cleanup]
    rw [e1]
    exact List.mem_append_left _ (marks_reqonly cfg env _ hg hreq hrsp)
  · intro hreq hrsp hr h1 h2 h3
    have hnc : noConflict cfg := by simp [noConflict, hreq]
    obtain ⟨δ, e1, s1⟩ := reach_modes_top p cfg env AMVP_SUCCESS [] hs hg hnc hr
    rw [List.nil_append] at e1
    have hb : (cfg.vector_req && cfg.vector_rsp) = true := by
      simp [hreq, hrsp]
    show Event.run_vectors_from_file ∈
        (main_setup p cfg env AMVP_SUCCESS []).2 ++ [Event.app_cleanup] ∧
      Event.run ∉
        (main_setup p cfg env AMVP_SUCCESS []).2 ++ [Event.app_cleanup] ∧
      (main_setup p cfg env AMVP_SUCCESS []).1 = env.run_vectors_from_file
    rw [e1, modes_offline cfg env 0 δ h1 h2 h3 hb]
    refine ⟨by simp, ?_, rfl⟩
    rw [List.append_assoc]
    exact notin_mid δ _ _ _ (fun hh => absurd (s1 hh) (by decide))
      (by decide) (by decide)

/-- Response file set, request file unset: the conflict case. -/
def cfgC1rsp : APP_CONFIG := { vector_rsp := true }

theorem C1_vector_files_amended_witness :
    setupOk env0 ∧ getOk env0 ∧
    (!cfgC1rsp.vector_req && cfgC1rsp.vector_rsp) = true ∧
    (Event.print_vector_conflict ∈ (amvp_app_main p0 cfgC1rsp env0).2 ∧
      (∀ e ∈ (amvp_app_main p0 cfgC1rsp env0).2, actionEvent e = false) ∧
      (amvp_app_main p0 cfgC1rsp env0).1 = 0) :=
  ⟨⟨rfl, rfl, rfl, rfl, rfl, rfl, rfl⟩, ⟨rfl, rfl⟩, rfl,
    (C1_vector_files_amended p0 cfgC1rsp env0
      ⟨rfl, rfl, rfl, rfl, rfl, rfl, rfl⟩ ⟨rfl, rfl⟩).1 rfl⟩

/-! ## C2: exit status versus statuses on the path -/

/-- C2 counterexample: the configuration-conflict branch (response file
without request file) prints its diagnostic and jumps to `end:` WITHOUT
assigning `rv` (lines 258-261), so the process exits 0 even though the
run aborted on a configuration conflict.  This refutes the claimed
equivalence "exit 0 iff every status on the terminal path is success". -/
theorem C2_counterexample :
    Event.print_vector_conflict ∈ (amvp_app_main p0 cfgC1rsp env0).2 ∧
    (amvp_app_main p0 cfgC1rsp env0).1 = 0 := by
  decide

/-- C2 amended: the exit status is the value of `rv` at `end:`, i.e. the
last status a call stored in `rv` — not a summary of every status on the
path: (i) if every collaborator status is success the exit status is 0;
(ii) the vector-file configuration conflict exits with the previously
stored status (0 after a clean setup), not non-zero; (iii) a failed
registration fetch (NULL from `amvp_get_current_registration`) likewise
exits 0; (iv) a failing status-returning terminal step (here: KAT load)
does propagate its status to the exit code. -/
theorem C2_exit_status_amended (p : SessionParams) (cfg : APP_CONFIG)
    (env : Env) :
    (allOk env → (amvp_app_main p cfg env).1 = 0) ∧
    (setupOk env → getOk env → (!cfg.vector_req && cfg.vector_rsp) = true →
      (amvp_app_main p cfg env).1 = 0 ∧
      Event.print_vector_conflict ∈ (amvp_app_main p cfg env).2) ∧
    (setupOk env → getOk env → noConflict cfg → regOk env →
      cfg.get_cost = false → cfg.get_reg = true →
      env.get_current_registration = false →
      (amvp_app_main p cfg env).1 = 0 ∧
      Event.get_current_registration ∈ (amvp_app_main p cfg env).2) ∧
    (setupOk env → getOk env → noConflict cfg → regOk env →
      cfg.get_cost = false → cfg.get_reg = false → cfg.kat = true →
      (amvp_app_main p cfg env).1 = env.load_kat_filename) := by
  refine ⟨?_, ?_, ?_, ?_⟩
  · intro h
    obtain ⟨hs, hg, hr, hf, ha, hsv, hk, hrv, _⟩ := h
    by_cases hc : (!cfg.vector_req && cfg.vector_rsp) = true
    · obtain ⟨δ, e, _, _⟩ := reach_conflict_top p cfg env hs hg hc
      rw [e]
    · have hnc : noConflict cfg := Bool.eq_false_iff.mpr hc
      obtain ⟨δ, e1, _⟩ := reach_modes_top p cfg env AMVP_SUCCESS [] hs hg
        hnc hr
      show (main_setup p cfg env AMVP_SUCCESS []).1 = 0
      rw [e1]
      exact modes_rv0 cfg env _ hk hrv hf ha
  · intro hs hg hc
    obtain ⟨δ, e, _, mδ⟩ := reach_conflict_top p cfg env hs hg hc
    rw [e]
    exact ⟨rfl, List.mem_append_left _ mδ⟩
  · intro hs hg hnc hr h1 h2 h3
    obtain ⟨δ, e1, _⟩ := reach_modes_top p cfg env AMVP_SUCCESS [] hs hg hnc hr
    rw [List.nil_append] at e1
    show (main_setup p cfg env AMVP_SUCCESS []).1 = 0 ∧
      Event.get_current_registration ∈
        (main_setup p cfg env AMVP_SUCCESS []).2 ++ [Event.app_cleanup]
    rw [e1, modes_getreg_null cfg env 0 δ h1 h2 h3]
    exact ⟨rfl, by simp⟩
  · intro hs hg hnc hr h1 h2 h3
    obtain ⟨δ, e1, _⟩ := reach_modes_top p cfg env AMVP_SUCCESS [] hs hg hnc hr
    rw [List.nil_append] at e1
    show (main_setup p cfg env AMVP_SUCCESS []).1 = env.load_kat_filename
    rw [e1, modes_kat cfg env 0 δ h1 h2 h3]

/-- KAT mode whose load fails with status 7. -/
def envC2 : Env := { load_kat_filename := 7 }

theorem C2_exit_status_amended_witness :
    setupOk envC2 ∧ getOk envC2 ∧ noConflict cfgC3 ∧ regOk envC2 ∧
    cfgC3.get_cost = false ∧ cfgC3.get_reg = false ∧ cfgC3.kat = true ∧
    (amvp_app_main p0 cfgC3 envC2).1 = 7 :=
  ⟨⟨rfl, rfl, rfl, rfl, rfl, rfl, rfl⟩, ⟨rfl, rfl⟩, rfl, ⟨rfl, rfl, rfl⟩,
    rfl, rfl, rfl,
    (C2_exit_status_amended p0 cfgC3 envC2).2.2.2
      ⟨rfl, rfl, rfl, rfl, rfl, rfl, rfl⟩ ⟨rfl, rfl⟩ rfl ⟨rfl, rfl, rfl⟩
      rfl rfl rfl⟩

/-! ## C8: failed saves -/

/-- Lines 295-301: registration fetched, saving it fails: only the error
message is printed, `rv` is untouched, the branch stays terminal. -/
theorem modes_getreg_savefail (cfg : APP_CONFIG) (env : Env) (rv : Nat)
    (tr : List Event) (h1 : cfg.get_cost = false) (h2 : cfg.get_reg = true)
    (h3 : env.get_current_registration = true) (h4 : cfg.save_to = true)
    (h5 : env.save_string_to_file ≠ 0) :
    main_modes cfg env rv tr =
      (rv, tr ++ [Event.get_current_registration, Event.save_string_to_file,
        Event.print_reg_save_error]) := by
  simp [main_modes, h1, h2, h3, h4, h5]

theorem main_reg_off (cfg : APP_CONFIG) (env : Env) (rv : Nat)
    (tr : List Event) (hman : cfg.manual_reg = false)
    (hhash : cfg.hash = false) :
    main_reg cfg env rv tr = main_modes cfg env rv tr := by
  simp [main_reg, hman, hhash]

theorem main_fips_off (cfg : APP_CONFIG) (env : Env) (rv : Nat)
    (tr : List Event) (hfv : cfg.fips_validation = false) :
    main_fips cfg env rv tr = main_actions cfg env rv tr := by
  simp [main_fips, hfv]

/-- Lines 238-243: the get-only mark succeeds but setting the save file
fails: the warning is printed, execution continues, and the failing status
stays in `rv`. -/
theorem marks_savefail (cfg : APP_CONFIG) (env : Env) (tr : List Event)
    (hget : cfg.get = true) (hsv : cfg.save_to = true)
    (hmk : env.mark_as_get_only = AMVP_SUCCESS)
    (hff : env.set_get_save_file ≠ AMVP_SUCCESS) (hnc : noConflict cfg) :
    ∃ δ, main_marks cfg env 0 tr =
        main_reg cfg env env.set_get_save_file (tr ++ δ) ∧
      Event.print_save_warning ∈ δ := by
  simp only [noConflict] at hnc
  by_cases h1 : cfg.sample <;> by_cases h4 : cfg.post <;>
  by_cases h5 : cfg.delete <;>
  by_cases h6 : (cfg.vector_req && !cfg.vector_rsp) <;>
    simp only [main_marks, main_marks2, hget, hsv, hmk, hff,
      hnc, h1, h4, h5, h6, ne_eq, not_true_eq_false, not_false_eq_true,
      ite_true, ite_false, Bool.false_eq_true, if_true, if_false,
      List.append_assoc, List.singleton_append, List.cons_append,
      List.nil_append] <;>
    exact ⟨_, rfl, by decide⟩

/-- Get-only mode with a save destination whose registration in the
session fails with status 5; the get action itself succeeds. -/
def cfgC8 : APP_CONFIG := { get := true, save_to := true }

def envC8 : Env := { set_get_save_file := 5 }

/-- C8 counterexample: the underlying action (the get-only mark, and the
run it leads to) succeeds, the save-file registration fails — and the
process exits with that failure status 5, not 0.  This refutes "a failure
to save never makes the process exit non-zero". -/
theorem C8_counterexample :
    envC8.mark_as_get_only = AMVP_SUCCESS ∧
    envC8.set_get_save_file ≠ AMVP_SUCCESS ∧
    Event.print_save_warning ∈ (amvp_app_main p0 cfgC8 envC8).2 ∧
    Event.run ∈ (amvp_app_main p0 cfgC8 envC8).2 ∧
    (amvp_app_main p0 cfgC8 envC8).1 = 5 := by
  decide

/-- C8 amended: a failed save is never immediately fatal, but the two save
sites differ.  (a) For the get-registration output (lines 295-301) a
failed `save_string_to_file` leaves both the recorded status and the exit
status at success — only the error message is printed.  (b) For get-only
mode (lines 238-243) a failed `amvp_set_get_save_file` prints the
"continuing anyway" warning and execution still reaches the live run, but
the failing status is stored in `rv`, and if no later call overwrites it
the process exits with that non-zero status. -/
theorem C8_save_failure_amended (p : SessionParams) (cfg : APP_CONFIG)
    (env : Env) :
    (setupOk env → getOk env → noConflict cfg → regOk env →
      cfg.get_cost = false → cfg.get_reg = true → cfg.save_to = true →
      env.get_current_registration = true → env.save_string_to_file ≠ 0 →
      (amvp_app_main p cfg env).1 = 0 ∧
      Event.save_string_to_file ∈ (amvp_app_main p cfg env).2 ∧
      Event.print_reg_save_error ∈ (amvp_app_main p cfg env).2) ∧
    (setupOk env → cfg.get = true → cfg.save_to = true →
      env.mark_as_get_only = AMVP_SUCCESS →
      env.set_get_save_file ≠ AMVP_SUCCESS → noConflict cfg →
      cfg.manual_reg = false → cfg.hash = false → modesClear cfg →
      cfg.fips_validation = false → cfg.vector_upload = false →
      cfg.put = false → cfg.get_results = false →
      cfg.resume_session = false → cfg.cancel_session = false →
      cfg.get_expected = false → cfg.post_resources = false →
      cfg.mod_cert_req = false →
      Event.print_save_warning ∈ (amvp_app_main p cfg env).2 ∧
      Event.run ∈ (amvp_app_main p cfg env).2 ∧
      (amvp_app_main p cfg env).1 = env.set_get_save_file) := by
  constructor
  · intro hs hg hnc hr h1 h2 h4 h3 h5
    obtain ⟨δ, e1, _⟩ := reach_modes_top p cfg env AMVP_SUCCESS [] hs hg hnc hr
    rw [List.nil_append] at e1
    show (main_setup p cfg env AMVP_SUCCESS []).1 = 0 ∧
      Event.save_string_to_file ∈
        (main_setup p cfg env AMVP_SUCCESS []).2 ++ [Event.app_cleanup] ∧
      Event.print_reg_save_error ∈
        (main_setup p cfg env AMVP_SUCCESS []).2 ++ [Event.app_cleanup]
    rw [e1, modes_getreg_savefail cfg env 0 δ h1 h2 h3 h4 h5]
    exact ⟨rfl, by simp, by simp⟩
  · intro hs hget hsv hmk hff hnc hman hhash hm hfv hupl hput h3 h4 h5 h6
      hpr hmc
    obtain ⟨δ1, e1, _⟩ := reach_marks p cfg env AMVP_SUCCESS [] hs
    obtain ⟨δ2, e2, w2⟩ := marks_savefail cfg env ([] ++ δ1) hget hsv hmk hff
      hnc
    show Event.print_save_warning ∈
        (main_setup p cfg env AMVP_SUCCESS []).2 ++ [Event.app_cleanup] ∧
      Event.run ∈
        (main_setup p cfg env AMVP_SUCCESS []).2 ++ [Event.app_cleanup] ∧
      (main_setup p cfg env AMVP_SUCCESS []).1 = env.set_get_save_file
    rw [e1, e2, main_reg_off cfg env _ _ hman hhash,
      reach_fips cfg env _ _ hm, main_fips_off cfg env _ _ hfv,
      reach_finale cfg env _ _ hupl hput h3 h4 h5 h6, main_finale_eq]
    refine ⟨?_, ?_, by simp [hpr, hmc]⟩
    · exact List.mem_append_left _ (List.mem_append_left _
        (List.mem_append_right _ w2))
    · exact List.mem_append_left _
        (List.mem_append_right _ (finale_suffix_run cfg))

theorem C8_save_failure_amended_witness :
    setupOk envC8 ∧ cfgC8.get = true ∧ cfgC8.save_to = true ∧
    envC8.mark_as_get_only = AMVP_SUCCESS ∧
    envC8.set_get_save_file ≠ AMVP_SUCCESS ∧ noConflict cfgC8 ∧
    modesClear cfgC8 ∧
    (Event.print_save_warning ∈ (amvp_app_main p0 cfgC8 envC8).2 ∧
      Event.run ∈ (amvp_app_main p0 cfgC8 envC8).2 ∧
      (amvp_app_main p0 cfgC8 envC8).1 = envC8.set_get_save_file) :=
  ⟨⟨rfl, rfl, rfl, rfl, rfl, rfl, rfl⟩, rfl, rfl, rfl, by decide, rfl,
    ⟨rfl, rfl, rfl, rfl⟩,
    (C8_save_failure_amended p0 cfgC8 envC8).2
      ⟨rfl, rfl, rfl, rfl, rfl, rfl, rfl⟩ rfl rfl rfl (by decide) rfl rfl
      rfl ⟨rfl, rfl, rfl, rfl⟩ rfl rfl rfl rfl rfl rfl rfl rfl rfl⟩

end AppMain
